import Mathlib

/-!
SSI to SD card adapter (`hw/ssi-sd.c`).

A shallow embedding of the byte-transfer state machine `ssi_sd_xfer` and of
`ssi_sd_init`.  The SD card model (`sd.h`: `sd_do_command`, `sd_data_ready`,
`sd_read_data`, the card-status masks) is not part of the unit; it is taken
as a parameter.  Every call the adapter makes to the card model is recorded
in a call log, so that statements about how often and with what request the
card is contacted can be made.

Conventions.
* `int` fields of the session are `Int`; bytes and the unsigned words
  (`uint8_t`, `uint16_t`, `uint32_t`) are `Nat`, reduced `% 2 ^ w` where a
  store truncates.
* The two arrays `cmdarg[4]` and `response[5]` are functions on `Fin 4` and
  `Fin 5`.  An access whose index lies outside the array is undefined
  behaviour in C; the embedding returns `none` there.
-/

namespace SsiSd

/-- The protocol phase, `ssi_sd_mode`. -/
inductive ssi_sd_mode where
  | SSI_SD_CMD
  | SSI_SD_CMDARG
  | SSI_SD_RESPONSE
  | SSI_SD_DATA_START
  | SSI_SD_DATA_READ
  deriving DecidableEq, Repr

open ssi_sd_mode

/-- Modelled from the spec: `struct sd_request_s` of `sd.h` (not in the unit),
the pair (command index, 32-bit argument) handed to `executeCommand`. -/
structure sd_request_s where
  cmd : Int
  arg : Nat
  deriving DecidableEq, Repr

/-- One entry of the call log: which card-model function was called. -/
inductive sd_call where
  | do_command (request : sd_request_s)
  | data_ready
  | read_data
  deriving DecidableEq, Repr

/-- The card model, a parameter.  `κ` is the state of the card behind the
`sd_card *` pointer; every function may change it.
* `sd_do_command sd request` gives the `int` result count, the contents of
  the 16-byte buffer `longresp` after the call, and the new card state;
* `sd_data_ready sd` gives the truth value of its `int` result;
* `sd_read_data sd` gives the next data byte. -/
structure sd_card_ops (κ : Type) where
  sd_do_command : κ → sd_request_s → Int × (Fin 16 → Nat) × κ
  sd_data_ready : κ → Bool × κ
  sd_read_data : κ → Nat × κ

/-- The card-status masks of `sd.h` used by the status mapping, a parameter. -/
structure sd_status_masks where
  ERASE_RESET : Nat
  ILLEGAL_COMMAND : Nat
  COM_CRC_ERROR : Nat
  ERASE_SEQ_ERROR : Nat
  ADDRESS_ERROR : Nat
  CARD_IS_LOCKED : Nat
  LOCK_UNLOCK_FAILED : Nat
  WP_ERASE_SKIP : Nat
  SD_ERROR : Nat
  CC_ERROR : Nat
  CARD_ECC_FAILED : Nat
  WP_VIOLATION : Nat
  ERASE_PARAM : Nat
  OUT_OF_RANGE : Nat
  CID_CSD_OVERWRITE : Nat

/-- The session, `ssi_sd_state`.  The field `sd` holds the state of the card
the pointer refers to. -/
structure ssi_sd_state (κ : Type) where
  mode : ssi_sd_mode
  cmd : Int
  cmdarg : Fin 4 → Nat
  response : Fin 5 → Nat
  arglen : Int
  response_pos : Int
  stopping : Int
  sd : κ

/-! State word bits. -/

def SSI_SDR_LOCKED : Nat := 0x0001
def SSI_SDR_WP_ERASE : Nat := 0x0002
def SSI_SDR_ERROR : Nat := 0x0004
def SSI_SDR_CC_ERROR : Nat := 0x0008
def SSI_SDR_ECC_FAILED : Nat := 0x0010
def SSI_SDR_WP_VIOLATION : Nat := 0x0020
def SSI_SDR_ERASE_PARAM : Nat := 0x0040
def SSI_SDR_OUT_OF_RANGE : Nat := 0x0080
def SSI_SDR_IDLE : Nat := 0x0100
def SSI_SDR_ERASE_RESET : Nat := 0x0200
def SSI_SDR_ILLEGAL_COMMAND : Nat := 0x0400
def SSI_SDR_COM_CRC_ERROR : Nat := 0x0800
def SSI_SDR_ERASE_SEQ_ERROR : Nat := 0x1000
def SSI_SDR_ADDRESS_ERROR : Nat := 0x2000
def SSI_SDR_PARAMETER_ERROR : Nat := 0x4000

/-- The big-endian 32-bit word `(b0 << 24) | (b1 << 16) | (b2 << 8) | b3`
of four bytes, as a `uint32_t`. -/
def be32 (b0 b1 b2 b3 : Nat) : Nat :=
  ((b0 <<< 24) ||| (b1 <<< 16) ||| (b2 <<< 8) ||| b3) % 2 ^ 32

/-- Lines 117-149 of `ssi_sd_xfer`: the 16-bit status word built from the
32-bit card status, one `if (...) status |= ...;` after the other. -/
def spi_status (m : sd_status_masks) (cardstatus : Nat) : Nat :=
  let status : Nat := 0
  let status := if ((cardstatus >>> 9) &&& 0xf) < 4 then status ||| SSI_SDR_IDLE else status
  let status := if cardstatus &&& m.ERASE_RESET ≠ 0
    then status ||| SSI_SDR_ERASE_RESET else status
  let status := if cardstatus &&& m.ILLEGAL_COMMAND ≠ 0
    then status ||| SSI_SDR_ILLEGAL_COMMAND else status
  let status := if cardstatus &&& m.COM_CRC_ERROR ≠ 0
    then status ||| SSI_SDR_COM_CRC_ERROR else status
  let status := if cardstatus &&& m.ERASE_SEQ_ERROR ≠ 0
    then status ||| SSI_SDR_ERASE_SEQ_ERROR else status
  let status := if cardstatus &&& m.ADDRESS_ERROR ≠ 0
    then status ||| SSI_SDR_ADDRESS_ERROR else status
  let status := if cardstatus &&& m.CARD_IS_LOCKED ≠ 0
    then status ||| SSI_SDR_LOCKED else status
  let status := if cardstatus &&& (m.LOCK_UNLOCK_FAILED ||| m.WP_ERASE_SKIP) ≠ 0
    then status ||| SSI_SDR_WP_ERASE else status
  let status := if cardstatus &&& m.SD_ERROR ≠ 0
    then status ||| SSI_SDR_ERROR else status
  let status := if cardstatus &&& m.CC_ERROR ≠ 0
    then status ||| SSI_SDR_CC_ERROR else status
  let status := if cardstatus &&& m.CARD_ECC_FAILED ≠ 0
    then status ||| SSI_SDR_ECC_FAILED else status
  let status := if cardstatus &&& m.WP_VIOLATION ≠ 0
    then status ||| SSI_SDR_WP_VIOLATION else status
  let status := if cardstatus &&& m.ERASE_PARAM ≠ 0
    then status ||| SSI_SDR_ERASE_PARAM else status
  let status := if cardstatus &&& (m.OUT_OF_RANGE ||| m.CID_CSD_OVERWRITE) ≠ 0
    then status ||| SSI_SDR_OUT_OF_RANGE else status
  let status := if status &&& 0xff ≠ 0 then status ||| SSI_SDR_PARAMETER_ERROR else status
  status

/-- Lines 115-116 of `ssi_sd_xfer`: the 32-bit card status, the big-endian
word of bytes 0..3 of `longresp` (a `uint8_t` array: each entry is read as a
byte). -/
def card_status (longresp : Fin 16 → Nat) : Nat :=
  be32 (longresp 0 % 256) (longresp 1 % 256) (longresp 2 % 256) (longresp 3 % 256)

/-- Lines 93-153 of `ssi_sd_xfer`: the response built after
`s->arglen = sd_do_command(...)`; `s` is the session with `arglen` already
holding the result count and `longresp` the buffer the card model filled. -/
def build_response {κ : Type} (m : sd_status_masks) (s : ssi_sd_state κ)
    (longresp : Fin 16 → Nat) : ssi_sd_state κ :=
  if s.arglen ≤ 0 then
    { s with arglen := 1, response := Function.update s.response 0 4 }
  else if s.cmd = 58 then
    { s with
      arglen := 5
      response := fun i =>
        if i = 0 then 1
        else if i = 1 then longresp 0 % 256
        else if i = 2 then longresp 1 % 256
        else if i = 3 then longresp 2 % 256
        else longresp 3 % 256 }
  else if s.arglen ≠ 4 then
    { s with arglen := 1, response := Function.update s.response 0 4 }
  else
    let cardstatus := card_status longresp
    let status := spi_status m cardstatus
    { s with
      arglen := if s.cmd = 13 then 2 else 1
      response := Function.update (Function.update s.response 0 ((status >>> 8) % 256))
        1 (status % 256) }

/-- Lines 88-90 of `ssi_sd_xfer`: the request assembled from the pending
command and the four argument bytes, most significant byte first. -/
def ssi_sd_request {κ : Type} (s : ssi_sd_state κ) : sd_request_s :=
  { cmd := s.cmd, arg := be32 (s.cmdarg 0) (s.cmdarg 1) (s.cmdarg 2) (s.cmdarg 3) }

/-- What one call of `ssi_sd_xfer` yields: the session afterwards (the card
state included), the returned byte and the calls made to the card model. -/
structure xfer_result (κ : Type) where
  s : ssi_sd_state κ
  ret : Nat
  calls : List sd_call

/-- The byte transfer `ssi_sd_xfer`.  `val` is the byte clocked in.  The
result is `none` exactly when the C code indexes `cmdarg` or `response`
outside the array. -/
def ssi_sd_xfer {κ : Type} (ops : sd_card_ops κ) (m : sd_status_masks)
    (s0 : ssi_sd_state κ) (val : Nat) : Option (xfer_result κ) :=
  -- Special case: allow CMD12 (STOP TRANSMISSION) while reading data.
  let s := if s0.mode = SSI_SD_DATA_READ ∧ val = 0x4d
    then { s0 with mode := SSI_SD_CMD, stopping := 1 } else s0
  match s.mode with
  | SSI_SD_CMD =>
    if val = 0xff then
      some ⟨s, 0xff, []⟩
    else
      some ⟨{ s with cmd := ((val &&& 0x3f : Nat) : Int), mode := SSI_SD_CMDARG, arglen := 0 },
        0xff, []⟩
  | SSI_SD_CMDARG =>
    if s.arglen = 4 then
      let request := ssi_sd_request s
      let r := ops.sd_do_command s.sd request
      let s1 := build_response m { s with arglen := r.1, sd := r.2.2 } r.2.1
      some ⟨{ s1 with mode := SSI_SD_RESPONSE, response_pos := 0 }, 0xff,
        [sd_call.do_command request]⟩
    else if h : 0 ≤ s.arglen ∧ s.arglen < 4 then
      some ⟨{ s with
              cmdarg := Function.update s.cmdarg ⟨s.arglen.toNat, by omega⟩ (val % 256)
              arglen := s.arglen + 1 }, 0xff, []⟩
    else
      none
  | SSI_SD_RESPONSE =>
    if s.stopping ≠ 0 then
      some ⟨{ s with stopping := 0 }, 0xff, []⟩
    else if s.response_pos < s.arglen then
      if h : 0 ≤ s.response_pos ∧ s.response_pos < 5 then
        some ⟨{ s with response_pos := s.response_pos + 1 },
          s.response ⟨s.response_pos.toNat, by omega⟩, []⟩
      else
        none
    else
      let r := ops.sd_data_ready s.sd
      if r.1 then
        some ⟨{ s with mode := SSI_SD_DATA_START, sd := r.2 }, 0xff, [sd_call.data_ready]⟩
      else
        some ⟨{ s with mode := SSI_SD_CMD, sd := r.2 }, 0xff, [sd_call.data_ready]⟩
  | SSI_SD_DATA_START =>
    some ⟨{ s with mode := SSI_SD_DATA_READ }, 0xfe, []⟩
  | SSI_SD_DATA_READ =>
    let d := ops.sd_read_data s.sd
    let r := ops.sd_data_ready d.2
    if ¬ r.1 then
      some ⟨{ s with mode := SSI_SD_CMD, sd := r.2 }, d.1, [sd_call.read_data, sd_call.data_ready]⟩
    else
      some ⟨{ s with sd := r.2 }, d.1, [sd_call.read_data, sd_call.data_ready]⟩

/-- The session made by `ssi_sd_init`: zeroed memory, mode `SSI_SD_CMD`, and
the card `sd_init` returned. -/
def ssi_sd_init {κ : Type} (sd : κ) : ssi_sd_state κ :=
  { mode := SSI_SD_CMD, cmd := 0, cmdarg := fun _ => 0, response := fun _ => 0,
    arglen := 0, response_pos := 0, stopping := 0, sd := sd }

/-- What a sequence of transfers yields: the session afterwards, the bytes
returned in order, and the calls made to the card model in order. -/
structure run_result (κ : Type) where
  s : ssi_sd_state κ
  outs : List Nat
  calls : List sd_call

/-- Successive calls of `ssi_sd_xfer`, one per input byte. -/
def ssi_sd_run {κ : Type} (ops : sd_card_ops κ) (m : sd_status_masks) :
    ssi_sd_state κ → List Nat → Option (run_result κ)
  | s, [] => some ⟨s, [], []⟩
  | s, v :: vs =>
    match ssi_sd_xfer ops m s v with
    | none => none
    | some r =>
      match ssi_sd_run ops m r.s vs with
      | none => none
      | some t => some ⟨t.s, r.ret :: t.outs, r.calls ++ t.calls⟩

/-! The status mapping as a table -/

/-- The condition of the idle flag: the 4-bit field in bits 9..12 of the
card status is below 4. -/
def state_below_4 (c : Nat) : Prop := ((c >>> 9) &&& 0xf) < 4

instance (c : Nat) : Decidable (state_below_4 c) := by
  unfold state_below_4; infer_instance

/-- The card status `c` has a bit of the mask `mask`. -/
def has_flag (c mask : Nat) : Prop := c &&& mask ≠ 0

instance (c mask : Nat) : Decidable (has_flag c mask) := by
  unfold has_flag; infer_instance

/-- One of the eight conditions of the low status byte holds for the card
status `c`. -/
def low_flag_set (m : sd_status_masks) (c : Nat) : Prop :=
  has_flag c m.CARD_IS_LOCKED ∨
  (has_flag c m.LOCK_UNLOCK_FAILED ∨ has_flag c m.WP_ERASE_SKIP) ∨
  has_flag c m.SD_ERROR ∨
  has_flag c m.CC_ERROR ∨
  has_flag c m.CARD_ECC_FAILED ∨
  has_flag c m.WP_VIOLATION ∨
  has_flag c m.ERASE_PARAM ∨
  (has_flag c m.OUT_OF_RANGE ∨ has_flag c m.CID_CSD_OVERWRITE)

instance (m : sd_status_masks) (c : Nat) : Decidable (low_flag_set m c) := by
  unfold low_flag_set; infer_instance

/-- The mapping table of the status word, written after its description:
the bitwise OR of one constant per condition that holds. -/
def status_table (m : sd_status_masks) (c : Nat) : Nat :=
  (if state_below_4 c then 0x0100 else 0) |||
  (if has_flag c m.ERASE_RESET then 0x0200 else 0) |||
  (if has_flag c m.ILLEGAL_COMMAND then 0x0400 else 0) |||
  (if has_flag c m.COM_CRC_ERROR then 0x0800 else 0) |||
  (if has_flag c m.ERASE_SEQ_ERROR then 0x1000 else 0) |||
  (if has_flag c m.ADDRESS_ERROR then 0x2000 else 0) |||
  (if has_flag c m.CARD_IS_LOCKED then 0x0001 else 0) |||
  (if has_flag c m.LOCK_UNLOCK_FAILED ∨ has_flag c m.WP_ERASE_SKIP then 0x0002 else 0) |||
  (if has_flag c m.SD_ERROR then 0x0004 else 0) |||
  (if has_flag c m.CC_ERROR then 0x0008 else 0) |||
  (if has_flag c m.CARD_ECC_FAILED then 0x0010 else 0) |||
  (if has_flag c m.WP_VIOLATION then 0x0020 else 0) |||
  (if has_flag c m.ERASE_PARAM then 0x0040 else 0) |||
  (if has_flag c m.OUT_OF_RANGE ∨ has_flag c m.CID_CSD_OVERWRITE then 0x0080 else 0) |||
  (if low_flag_set m c then 0x4000 else 0)

/-! A card that streams a data block -/

/-- Read from the card state `k`, the card model streams exactly the bytes
`ds`, at least one: each `sd_read_data` gives the next byte, and the
`sd_data_ready` check that follows it answers true after every byte but the
last and false after the last. -/
def streams {κ : Type} (ops : sd_card_ops κ) : κ → List Nat → Prop
  | _, [] => False
  | k, [d] =>
    (ops.sd_read_data k).1 = d ∧ (ops.sd_data_ready (ops.sd_read_data k).2).1 = false
  | k, d :: d' :: ds =>
    (ops.sd_read_data k).1 = d ∧ (ops.sd_data_ready (ops.sd_read_data k).2).1 = true ∧
      streams ops (ops.sd_data_ready (ops.sd_read_data k).2).2 (d' :: ds)

/-! Invariants of the session -/

/-- The counter invariant: in `SSI_SD_CMDARG` the shared counter `arglen` is
between 0 and 4; in `SSI_SD_RESPONSE` it is 1, 2 or 5 and the cursor
`response_pos` is between 0 and it. -/
def counter_inv {κ : Type} (s : ssi_sd_state κ) : Prop :=
  (s.mode = SSI_SD_CMDARG → 0 ≤ s.arglen ∧ s.arglen ≤ 4) ∧
  (s.mode = SSI_SD_RESPONSE →
    (s.arglen = 1 ∨ s.arglen = 2 ∨ s.arglen = 5) ∧
      0 ≤ s.response_pos ∧ s.response_pos ≤ s.arglen)

/-- The confinement of the abort flag: if `stopping` is set, the mode is
`SSI_SD_CMDARG`, or `SSI_SD_RESPONSE` with the cursor at 0. -/
def stopping_inv {κ : Type} (s : ssi_sd_state κ) : Prop :=
  s.stopping ≠ 0 →
    s.mode = SSI_SD_CMDARG ∨ (s.mode = SSI_SD_RESPONSE ∧ s.response_pos = 0)

/-! A scripted card for the examples -/

/-- A scripted card: its state is the list of data bytes still to be read;
every command is answered with the result count `n` and the buffer `lr`. -/
def demo_ops (n : Int) (lr : Fin 16 → Nat) : sd_card_ops (List Nat) :=
  { sd_do_command := fun k _ => (n, lr, k)
    sd_data_ready := fun k => (!k.isEmpty, k)
    sd_read_data := fun k => (k.headD 0, k.tail) }

/-- Sample card-status masks, one bit each. -/
def demo_masks : sd_status_masks :=
  { ERASE_RESET := 2 ^ 13, ILLEGAL_COMMAND := 2 ^ 22, COM_CRC_ERROR := 2 ^ 23,
    ERASE_SEQ_ERROR := 2 ^ 28, ADDRESS_ERROR := 2 ^ 30, CARD_IS_LOCKED := 2 ^ 25,
    LOCK_UNLOCK_FAILED := 2 ^ 24, WP_ERASE_SKIP := 2 ^ 15, SD_ERROR := 2 ^ 19,
    CC_ERROR := 2 ^ 20, CARD_ECC_FAILED := 2 ^ 21, WP_VIOLATION := 2 ^ 26,
    ERASE_PARAM := 2 ^ 27, OUT_OF_RANGE := 2 ^ 31, CID_CSD_OVERWRITE := 2 ^ 16 }

/-- A session in the given mode, everything else as after `ssi_sd_init`. -/
def demo_state (mode : ssi_sd_mode) (sd : List Nat) : ssi_sd_state (List Nat) :=
  { ssi_sd_init sd with mode := mode }

/-! Helper lemmas -/

theorem be32_eq_sum (b0 b1 b2 b3 : Nat) (h0 : b0 < 256) (h1 : b1 < 256) (h2 : b2 < 256)
    (h3 : b3 < 256) :
    be32 b0 b1 b2 b3 = b0 * 2 ^ 24 + b1 * 2 ^ 16 + b2 * 2 ^ 8 + b3 := by
  unfold be32
  rw [Nat.or_assoc, Nat.or_assoc, Nat.shiftLeft_eq, Nat.shiftLeft_eq, Nat.shiftLeft_eq]
  have e1 : b2 * 2 ^ 8 ||| b3 = 2 ^ 8 * b2 + b3 := by
    rw [Nat.mul_comm]; exact (Nat.mul_add_lt_is_or (by omega) b2).symm
  have e2 : b1 * 2 ^ 16 ||| (2 ^ 8 * b2 + b3) = 2 ^ 16 * b1 + (2 ^ 8 * b2 + b3) := by
    rw [Nat.mul_comm]; exact (Nat.mul_add_lt_is_or (by omega) b1).symm
  have e3 : b0 * 2 ^ 24 ||| (2 ^ 16 * b1 + (2 ^ 8 * b2 + b3))
      = 2 ^ 24 * b0 + (2 ^ 16 * b1 + (2 ^ 8 * b2 + b3)) := by
    rw [Nat.mul_comm]; exact (Nat.mul_add_lt_is_or (by omega) b0).symm
  rw [e1, e2, e3, Nat.mod_eq_of_lt (by omega)]
  omega

theorem or_ite_zero (p : Prop) [Decidable p] (s x : Nat) :
    (if p then s ||| x else s) = s ||| (if p then x else 0) := by
  split <;> simp

theorem nat_or_eq_zero (a b : Nat) : a ||| b = 0 ↔ a = 0 ∧ b = 0 := by
  constructor
  · intro h
    constructor
    · apply Nat.eq_of_testBit_eq
      intro i
      have := congrArg (fun x => x.testBit i) h
      simp at this
      simp [this.1]
    · apply Nat.eq_of_testBit_eq
      intro i
      have := congrArg (fun x => x.testBit i) h
      simp at this
      simp [this.2]
  · rintro ⟨rfl, rfl⟩
    rfl

theorem has_flag_or (c a b : Nat) : c &&& (a ||| b) ≠ 0 ↔ has_flag c a ∨ has_flag c b := by
  unfold has_flag
  rw [Nat.and_or_distrib_left, Ne, nat_or_eq_zero]
  tauto

theorem or_and_255 (a b : Nat) : (a ||| b) &&& 255 = (a &&& 255) ||| (b &&& 255) := by
  rw [Nat.and_comm, Nat.and_or_distrib_left, Nat.and_comm, Nat.and_comm 255 b]

theorem ite_and_255_high (p : Prop) [Decidable p] (x : Nat) (hx : x &&& 255 = 0) :
    (if p then x else 0) &&& 255 = 0 := by
  split <;> simp [hx]

theorem ite_and_255_low (p : Prop) [Decidable p] (x : Nat) (hx : x &&& 255 = x) :
    (if p then x else 0) &&& 255 = if p then x else 0 := by
  split <;> simp [hx]

theorem ite_eq_zero_iff (p : Prop) [Decidable p] (x : Nat) (hx : x ≠ 0) :
    (if p then x else 0) = 0 ↔ ¬ p := by
  split <;> simp [*]

/-- The low byte of the word OR-ed from the fourteen flags is nonzero exactly
when one of the eight low conditions holds. -/
theorem low_byte_ne_zero_iff (p1 p2 p3 p4 p5 p6 q1 q2 q3 q4 q5 q6 q7 q8 : Prop)
    [Decidable p1] [Decidable p2] [Decidable p3] [Decidable p4] [Decidable p5] [Decidable p6]
    [Decidable q1] [Decidable q2] [Decidable q3] [Decidable q4] [Decidable q5] [Decidable q6]
    [Decidable q7] [Decidable q8] :
    ((if p1 then 256 else 0) ||| (if p2 then 512 else 0) ||| (if p3 then 1024 else 0) |||
      (if p4 then 2048 else 0) ||| (if p5 then 4096 else 0) ||| (if p6 then 8192 else 0) |||
      (if q1 then 1 else 0) ||| (if q2 then 2 else 0) ||| (if q3 then 4 else 0) |||
      (if q4 then 8 else 0) ||| (if q5 then 16 else 0) ||| (if q6 then 32 else 0) |||
      (if q7 then 64 else 0) ||| (if q8 then 128 else 0) : Nat) &&& 255 ≠ 0 ↔
    (q1 ∨ q2 ∨ q3 ∨ q4 ∨ q5 ∨ q6 ∨ q7 ∨ q8) := by
  simp only [or_and_255]
  rw [ite_and_255_high p1 256 (by decide), ite_and_255_high p2 512 (by decide),
    ite_and_255_high p3 1024 (by decide), ite_and_255_high p4 2048 (by decide),
    ite_and_255_high p5 4096 (by decide), ite_and_255_high p6 8192 (by decide),
    ite_and_255_low q1 1 (by decide), ite_and_255_low q2 2 (by decide),
    ite_and_255_low q3 4 (by decide), ite_and_255_low q4 8 (by decide),
    ite_and_255_low q5 16 (by decide), ite_and_255_low q6 32 (by decide),
    ite_and_255_low q7 64 (by decide), ite_and_255_low q8 128 (by decide)]
  simp only [Ne, nat_or_eq_zero, Nat.zero_or]
  rw [ite_eq_zero_iff q1 1 (by decide), ite_eq_zero_iff q2 2 (by decide),
    ite_eq_zero_iff q3 4 (by decide), ite_eq_zero_iff q4 8 (by decide),
    ite_eq_zero_iff q5 16 (by decide), ite_eq_zero_iff q6 32 (by decide),
    ite_eq_zero_iff q7 64 (by decide), ite_eq_zero_iff q8 128 (by decide)]
  tauto

theorem spi_status_eq_table (m : sd_status_masks) (c : Nat) :
    spi_status m c = status_table m c := by
  unfold spi_status status_table
  simp only [or_ite_zero, Nat.zero_or, has_flag_or]
  simp only [SSI_SDR_LOCKED, SSI_SDR_WP_ERASE, SSI_SDR_ERROR, SSI_SDR_CC_ERROR,
    SSI_SDR_ECC_FAILED, SSI_SDR_WP_VIOLATION, SSI_SDR_ERASE_PARAM, SSI_SDR_OUT_OF_RANGE,
    SSI_SDR_IDLE, SSI_SDR_ERASE_RESET, SSI_SDR_ILLEGAL_COMMAND, SSI_SDR_COM_CRC_ERROR,
    SSI_SDR_ERASE_SEQ_ERROR, SSI_SDR_ADDRESS_ERROR, SSI_SDR_PARAMETER_ERROR, state_below_4,
    low_flag_set, has_flag]
  congr 1
  exact if_congr (low_byte_ne_zero_iff _ _ _ _ _ _ _ _ _ _ _ _ _ _) rfl rfl

theorem ite_lt_two_pow_15 (p : Prop) [Decidable p] (x : Nat) (hx : x < 2 ^ 15) :
    (if p then x else 0) < 2 ^ 15 := by
  split
  · exact hx
  · decide

theorem spi_status_lt (m : sd_status_masks) (c : Nat) : spi_status m c < 2 ^ 15 := by
  rw [spi_status_eq_table]
  unfold status_table
  repeat first
    | apply Nat.or_lt_two_pow
    | exact ite_lt_two_pow_15 _ _ (by decide)

theorem testBit_ite_zero (p : Prop) [Decidable p] (x i : Nat) :
    (if p then x else 0).testBit i = (decide p && x.testBit i) := by
  split <;> simp [*]

theorem status_table_bit_8 (m : sd_status_masks) (c : Nat) :
    (status_table m c).testBit 8 = decide (state_below_4 c) := by
  unfold status_table
  simp only [Nat.testBit_or, testBit_ite_zero, Bool.and_false, Bool.or_false,
    Bool.and_true, Bool.false_or,
    (by decide : Nat.testBit 256 8 = true), (by decide : Nat.testBit 512 8 = false),
    (by decide : Nat.testBit 1024 8 = false), (by decide : Nat.testBit 2048 8 = false),
    (by decide : Nat.testBit 4096 8 = false), (by decide : Nat.testBit 8192 8 = false),
    (by decide : Nat.testBit 1 8 = false), (by decide : Nat.testBit 2 8 = false),
    (by decide : Nat.testBit 4 8 = false), (by decide : Nat.testBit 8 8 = false),
    (by decide : Nat.testBit 16 8 = false), (by decide : Nat.testBit 32 8 = false),
    (by decide : Nat.testBit 64 8 = false), (by decide : Nat.testBit 128 8 = false),
    (by decide : Nat.testBit 16384 8 = false)]

theorem status_table_bit_14 (m : sd_status_masks) (c : Nat) :
    (status_table m c).testBit 14 = decide (low_flag_set m c) := by
  unfold status_table
  simp only [Nat.testBit_or, testBit_ite_zero, Bool.and_false, Bool.or_false,
    Bool.and_true, Bool.false_or,
    (by decide : Nat.testBit 256 14 = false), (by decide : Nat.testBit 512 14 = false),
    (by decide : Nat.testBit 1024 14 = false), (by decide : Nat.testBit 2048 14 = false),
    (by decide : Nat.testBit 4096 14 = false), (by decide : Nat.testBit 8192 14 = false),
    (by decide : Nat.testBit 1 14 = false), (by decide : Nat.testBit 2 14 = false),
    (by decide : Nat.testBit 4 14 = false), (by decide : Nat.testBit 8 14 = false),
    (by decide : Nat.testBit 16 14 = false), (by decide : Nat.testBit 32 14 = false),
    (by decide : Nat.testBit 64 14 = false), (by decide : Nat.testBit 128 14 = false),
    (by decide : Nat.testBit 16384 14 = true)]

theorem status_table_low_byte (m : sd_status_masks) (c : Nat) :
    status_table m c % 256 ≠ 0 ↔ low_flag_set m c := by
  have h : status_table m c % 256 = status_table m c &&& 255 :=
    (Nat.and_pow_two_sub_one_eq_mod (status_table m c) 8).symm
  rw [h]
  unfold status_table
  rw [or_and_255, ite_and_255_high _ 16384 (by decide), Nat.or_zero]
  unfold low_flag_set
  exact low_byte_ne_zero_iff _ _ _ _ _ _ _ _ _ _ _ _ _ _

theorem high_byte_testBit (st i : Nat) (hi : i < 8) :
    ((st >>> 8) % 256).testBit i = st.testBit (8 + i) := by
  have h : ((st >>> 8) % 256) = (st >>> 8) % 2 ^ 8 := rfl
  rw [h, Nat.testBit_mod_two_pow, Nat.testBit_shiftRight]
  simp [hi]

theorem status_table_zero (m : sd_status_masks) : status_table m 0 = 0x0100 := by
  simp +decide [status_table, has_flag, state_below_4, low_flag_set]

/-- The status path of a dispatch: pending command other than 58 and result
count 4. -/
theorem xfer_status_path {κ : Type} (ops : sd_card_ops κ) (m : sd_status_masks)
    (s : ssi_sd_state κ) (val : Nat) (longresp : Fin 16 → Nat) (sd' : κ)
    (hmode : s.mode = SSI_SD_CMDARG) (hlen : s.arglen = 4) (hcmd : s.cmd ≠ 58)
    (hcall : ops.sd_do_command s.sd (ssi_sd_request s) = (4, longresp, sd')) :
    ∃ r, ssi_sd_xfer ops m s val = some r ∧
      r.s.arglen = (if s.cmd = 13 then 2 else 1) ∧
      r.s.response 0 = (spi_status m (card_status longresp) >>> 8) % 256 ∧
      r.s.response 1 = spi_status m (card_status longresp) % 256 := by
  simp [ssi_sd_xfer, build_response, hmode, hlen, hcmd, hcall]

theorem build_response_byte0_lt {κ : Type} (m : sd_status_masks) (s : ssi_sd_state κ)
    (longresp : Fin 16 → Nat) : (build_response m s longresp).response 0 < 0x80 := by
  have hlt := spi_status_lt m (card_status longresp)
  unfold build_response
  split_ifs
  · simp
  · simp
  · simp
  · simp [Nat.shiftRight_eq_div_pow]
    omega
  · simp [Nat.shiftRight_eq_div_pow]
    omega

/-- The dispatch: the transfer from `SSI_SD_CMDARG` with `arglen = 4`. -/
theorem xfer_dispatch {κ : Type} (ops : sd_card_ops κ) (m : sd_status_masks)
    (s : ssi_sd_state κ) (val : Nat) (hmode : s.mode = SSI_SD_CMDARG) (hlen : s.arglen = 4) :
    ssi_sd_xfer ops m s val
      = some ⟨{ build_response m
                  { s with arglen := (ops.sd_do_command s.sd (ssi_sd_request s)).1,
                           sd := (ops.sd_do_command s.sd (ssi_sd_request s)).2.2 }
                  (ops.sd_do_command s.sd (ssi_sd_request s)).2.1 with
                mode := SSI_SD_RESPONSE, response_pos := 0 }, 0xff,
          [sd_call.do_command (ssi_sd_request s)]⟩ := by
  simp [ssi_sd_xfer, hmode, hlen]

theorem build_response_mode {κ : Type} (m : sd_status_masks) (s : ssi_sd_state κ)
    (longresp : Fin 16 → Nat) : (build_response m s longresp).mode = s.mode := by
  unfold build_response
  split_ifs <;> rfl

theorem build_response_stopping {κ : Type} (m : sd_status_masks) (s : ssi_sd_state κ)
    (longresp : Fin 16 → Nat) : (build_response m s longresp).stopping = s.stopping := by
  unfold build_response
  split_ifs <;> rfl

theorem build_response_arglen {κ : Type} (m : sd_status_masks) (s : ssi_sd_state κ)
    (longresp : Fin 16 → Nat) :
    (build_response m s longresp).arglen = 1 ∨ (build_response m s longresp).arglen = 2 ∨
      (build_response m s longresp).arglen = 5 := by
  unfold build_response
  split_ifs <;> simp

/-- One transfer from a session with the counter invariant is defined (every
array index is inside its array) and keeps the invariant. -/
theorem xfer_counter_inv {κ : Type} (ops : sd_card_ops κ) (m : sd_status_masks)
    (s : ssi_sd_state κ) (val : Nat) (hinv : counter_inv s) :
    ∃ r, ssi_sd_xfer ops m s val = some r ∧ counter_inv r.s := by
  obtain ⟨harg, hresp⟩ := hinv
  cases hm : s.mode with
  | SSI_SD_CMD =>
    by_cases hv : val = 0xff
    · simp [ssi_sd_xfer, hm, hv, counter_inv]
    · simp [ssi_sd_xfer, hm, hv, counter_inv]
  | SSI_SD_CMDARG =>
    obtain ⟨h0, h4⟩ := harg hm
    by_cases hlen : s.arglen = 4
    · refine ⟨_, xfer_dispatch ops m s val hm hlen, ?_⟩
      have ha := build_response_arglen m
        { s with arglen := (ops.sd_do_command s.sd (ssi_sd_request s)).1,
                 sd := (ops.sd_do_command s.sd (ssi_sd_request s)).2.2 }
        (ops.sd_do_command s.sd (ssi_sd_request s)).2.1
      refine ⟨fun h => by simp at h, fun _ => ⟨ha, le_refl _, ?_⟩⟩
      show (0 : Int) ≤ _
      rcases ha with h | h | h <;> rw [h] <;> decide
    · have hlt : s.arglen < 4 := lt_of_le_of_ne h4 hlen
      simp [ssi_sd_xfer, hm, hlen, h0, hlt, counter_inv]
      omega
  | SSI_SD_RESPONSE =>
    obtain ⟨hval, hp0, hple⟩ := hresp hm
    by_cases hstop : s.stopping = 0
    · by_cases hlt : s.response_pos < s.arglen
      · have h5 : s.response_pos < 5 := by omega
        simp [ssi_sd_xfer, hm, hstop, hlt, hp0, h5, counter_inv]
        exact ⟨hval, by omega, by omega⟩
      · cases hr : (ops.sd_data_ready s.sd).1 <;>
          simp [ssi_sd_xfer, hm, hstop, hlt, hr, counter_inv]
    · simp [ssi_sd_xfer, hm, hstop, counter_inv]
      exact ⟨hval, hp0, hple⟩
  | SSI_SD_DATA_START =>
    simp [ssi_sd_xfer, hm, counter_inv]
  | SSI_SD_DATA_READ =>
    by_cases hv : val = 0x4d
    · simp [ssi_sd_xfer, hm, hv, counter_inv]
    · cases hr : (ops.sd_data_ready (ops.sd_read_data s.sd).2).1 <;>
        simp [ssi_sd_xfer, hm, hv, hr, counter_inv]

/-- One transfer keeps the confinement of the abort flag. -/
theorem xfer_stopping_inv {κ : Type} (ops : sd_card_ops κ) (m : sd_status_masks)
    (s : ssi_sd_state κ) (val : Nat) (r : xfer_result κ) (hinv : stopping_inv s)
    (hx : ssi_sd_xfer ops m s val = some r) : stopping_inv r.s := by
  unfold stopping_inv at hinv
  cases hm : s.mode with
  | SSI_SD_CMD =>
    have hs : s.stopping = 0 := by
      by_contra h
      simpa [hm] using hinv h
    by_cases hv : val = 0xff
    · simp [ssi_sd_xfer, hm, hv] at hx
      subst hx
      simp [stopping_inv, hs]
    · simp [ssi_sd_xfer, hm, hv] at hx
      subst hx
      simp [stopping_inv]
  | SSI_SD_CMDARG =>
    by_cases hlen : s.arglen = 4
    · rw [xfer_dispatch ops m s val hm hlen] at hx
      simp only [Option.some.injEq] at hx
      subst hx
      simp [stopping_inv]
    · by_cases hb : 0 ≤ s.arglen ∧ s.arglen < 4
      · simp [ssi_sd_xfer, hm, hlen, hb] at hx
        subst hx
        simp [stopping_inv, hm]
      · simp [ssi_sd_xfer, hm, hlen, hb] at hx
  | SSI_SD_RESPONSE =>
    by_cases hstop : s.stopping = 0
    · by_cases hlt : s.response_pos < s.arglen
      · by_cases hb : 0 ≤ s.response_pos ∧ s.response_pos < 5
        · simp [ssi_sd_xfer, hm, hstop, hlt, hb] at hx
          subst hx
          simp [stopping_inv, hstop]
        · simp [ssi_sd_xfer, hm, hstop, hlt, hb] at hx
      · cases hr : (ops.sd_data_ready s.sd).1 <;>
          simp [ssi_sd_xfer, hm, hstop, hlt, hr] at hx <;>
          subst hx <;>
          simp [stopping_inv, hstop]
    · simp [ssi_sd_xfer, hm, hstop] at hx
      subst hx
      simp [stopping_inv]
  | SSI_SD_DATA_START =>
    have hs : s.stopping = 0 := by
      by_contra h
      simpa [hm] using hinv h
    simp [ssi_sd_xfer, hm] at hx
    subst hx
    simp [stopping_inv, hs]
  | SSI_SD_DATA_READ =>
    have hs : s.stopping = 0 := by
      by_contra h
      simpa [hm] using hinv h
    by_cases hv : val = 0x4d
    · simp [ssi_sd_xfer, hm, hv] at hx
      subst hx
      simp [stopping_inv]
    · cases hr : (ops.sd_data_ready (ops.sd_read_data s.sd).2).1 <;>
        simp [ssi_sd_xfer, hm, hv, hr] at hx <;>
        subst hx <;>
        simp [stopping_inv, hs]

/-- A property of sessions that every transfer keeps, and under which every
transfer is defined, holds after every sequence of transfers. -/
theorem run_invariant {κ : Type} (ops : sd_card_ops κ) (m : sd_status_masks)
    (P : ssi_sd_state κ → Prop)
    (hstep : ∀ s v, P s → ∃ r, ssi_sd_xfer ops m s v = some r ∧ P r.s) :
    ∀ (vs : List Nat) (s : ssi_sd_state κ), P s →
      ∃ r, ssi_sd_run ops m s vs = some r ∧ P r.s := by
  intro vs
  induction vs with
  | nil =>
    intro s hs
    exact ⟨⟨s, [], []⟩, rfl, hs⟩
  | cons v vs ih =>
    intro s hs
    obtain ⟨r, hx, hr⟩ := hstep s v hs
    obtain ⟨t, ht, hP⟩ := ih r.s hr
    exact ⟨⟨t.s, r.ret :: t.outs, r.calls ++ t.calls⟩, by simp only [ssi_sd_run, hx, ht], hP⟩

/-- Both invariants hold after every sequence of transfers from the initial
session. -/
theorem run_init_invariants {κ : Type} (ops : sd_card_ops κ) (m : sd_status_masks)
    (sd : κ) (vs : List Nat) :
    ∃ r, ssi_sd_run ops m (ssi_sd_init sd) vs = some r ∧ counter_inv r.s ∧
      stopping_inv r.s := by
  apply run_invariant ops m (fun s => counter_inv s ∧ stopping_inv s)
  · intro s v ⟨hc, hs⟩
    obtain ⟨r, hx, hr⟩ := xfer_counter_inv ops m s v hc
    exact ⟨r, hx, hr, xfer_stopping_inv ops m s v r hs hx⟩
  · simp [counter_inv, stopping_inv, ssi_sd_init]

theorem run_append {κ : Type} (ops : sd_card_ops κ) (m : sd_status_masks)
    (xs ys : List Nat) (s : ssi_sd_state κ) (t u : run_result κ)
    (h1 : ssi_sd_run ops m s xs = some t) (h2 : ssi_sd_run ops m t.s ys = some u) :
    ssi_sd_run ops m s (xs ++ ys) = some ⟨u.s, t.outs ++ u.outs, t.calls ++ u.calls⟩ := by
  induction xs generalizing s t with
  | nil =>
    simp only [ssi_sd_run, Option.some.injEq] at h1
    subst h1
    simp [h2]
  | cons x xs ih =>
    simp only [ssi_sd_run] at h1
    cases hx : ssi_sd_xfer ops m s x with
    | none => simp [hx] at h1
    | some r =>
      simp only [hx] at h1
      cases hr : ssi_sd_run ops m r.s xs with
      | none => simp [hr] at h1
      | some t' =>
        simp only [hr, Option.some.injEq] at h1
        subst h1
        have := ih r.s t' hr h2
        simp [ssi_sd_run, hx, this]

theorem xfer_response_byte {κ : Type} (ops : sd_card_ops κ) (m : sd_status_masks)
    (s : ssi_sd_state κ) (val k : Nat) (hmode : s.mode = SSI_SD_RESPONSE)
    (hstop : s.stopping = 0) (hpos : s.response_pos = (k : Int)) (hk : k < 5)
    (hlt : (k : Int) < s.arglen) :
    ssi_sd_xfer ops m s val
      = some ⟨{ s with response_pos := (k : Int) + 1 }, s.response ⟨k, hk⟩, []⟩ := by
  have h5 : (k : Int) < 5 := by omega
  simp [ssi_sd_xfer, hmode, hstop, hpos, hlt, h5]

theorem take_drop_step (l : List Nat) (k L : Nat) (hk : k < L) (hL : L ≤ l.length) :
    (l.take L).drop k = l[k] :: (l.take L).drop (k + 1) := by
  have h1 : k < (l.take L).length := by simp; omega
  rw [List.drop_eq_getElem_cons h1]
  simp

/-- The response phase: from cursor `k`, the next `L - k` transfers return
response bytes `k .. L-1` and leave the cursor at `L`. -/
theorem run_response_phase {κ : Type} (ops : sd_card_ops κ) (m : sd_status_masks)
    (L : Nat) (hL : L ≤ 5) (n : Nat) :
    ∀ (s : ssi_sd_state κ) (vs : List Nat) (k : Nat), s.mode = SSI_SD_RESPONSE →
      s.stopping = 0 → s.response_pos = (k : Int) → s.arglen = (L : Int) → k + n = L →
      vs.length = n →
      ssi_sd_run ops m s vs
        = some ⟨{ s with response_pos := (L : Int) },
            ((List.ofFn s.response).take L).drop k, []⟩ := by
  induction n with
  | zero =>
    intro s vs k hmode hstop hpos hlen hk hvs
    have hvs' : vs = [] := List.length_eq_zero.mp hvs
    have hkL : k = L := by omega
    subst hvs' hkL
    simp [ssi_sd_run, ← hpos]
  | succ n ih =>
    intro s vs k hmode hstop hpos hlen hk hvs
    obtain ⟨v, vs', rfl⟩ : ∃ v vs', vs = v :: vs' := by
      cases vs with
      | nil => simp at hvs
      | cons v vs' => exact ⟨v, vs', rfl⟩
    have hk5 : k < 5 := by omega
    have hx := xfer_response_byte ops m s v k hmode hstop hpos hk5 (by omega)
    have hrec := ih { s with response_pos := (k : Int) + 1 } vs' (k + 1) hmode hstop
      (by simp) hlen (by omega) (by simpa using hvs)
    simp only [ssi_sd_run, hx, hrec]
    rw [take_drop_step (List.ofFn s.response) k L (by omega) (by simp; omega)]
    simp only [List.getElem_ofFn, List.append_nil]

theorem xfer_response_end_ready {κ : Type} (ops : sd_card_ops κ) (m : sd_status_masks)
    (s : ssi_sd_state κ) (val : Nat) (hmode : s.mode = SSI_SD_RESPONSE)
    (hstop : s.stopping = 0) (hpos : s.response_pos = s.arglen)
    (hready : (ops.sd_data_ready s.sd).1 = true) :
    ssi_sd_xfer ops m s val
      = some ⟨{ s with mode := SSI_SD_DATA_START, sd := (ops.sd_data_ready s.sd).2 }, 0xff,
          [sd_call.data_ready]⟩ := by
  simp [ssi_sd_xfer, hmode, hstop, hpos, hready]

theorem xfer_data_start {κ : Type} (ops : sd_card_ops κ) (m : sd_status_masks)
    (s : ssi_sd_state κ) (val : Nat) (hmode : s.mode = SSI_SD_DATA_START) :
    ssi_sd_xfer ops m s val = some ⟨{ s with mode := SSI_SD_DATA_READ }, 0xfe, []⟩ := by
  simp [ssi_sd_xfer, hmode]

/-- The streaming phase: one transfer per data byte, the mode back to
`SSI_SD_CMD` with the last one. -/
theorem run_streaming_phase {κ : Type} (ops : sd_card_ops κ) (m : sd_status_masks)
    (ds : List Nat) :
    ∀ (s : ssi_sd_state κ) (vs : List Nat), s.mode = SSI_SD_DATA_READ →
      streams ops s.sd ds → vs.length = ds.length → (∀ v ∈ vs, v ≠ 0x4d) →
      ∃ r, ssi_sd_run ops m s vs = some r ∧ r.outs = ds ∧ r.s.mode = SSI_SD_CMD := by
  induction ds with
  | nil =>
    intro s vs _ hst
    simp [streams] at hst
  | cons d ds ih =>
    intro s vs hmode hst hvs hin
    obtain ⟨v, vs', rfl⟩ : ∃ v vs', vs = v :: vs' := by
      cases vs with
      | nil => simp at hvs
      | cons v vs' => exact ⟨v, vs', rfl⟩
    have hv : v ≠ 0x4d := hin v (by simp)
    cases ds with
    | nil =>
      obtain ⟨hd, hnr⟩ := hst
      have hvs' : vs' = [] := by
        apply List.length_eq_zero.mp
        simpa using hvs
      subst hvs'
      simp [ssi_sd_run, ssi_sd_xfer, hmode, hv, hd, hnr]
    | cons d' ds' =>
      obtain ⟨hd, hr, hrest⟩ := hst
      have hx : ssi_sd_xfer ops m s v
          = some ⟨{ s with sd := (ops.sd_data_ready (ops.sd_read_data s.sd).2).2 }, d,
              [sd_call.read_data, sd_call.data_ready]⟩ := by
        simp [ssi_sd_xfer, hmode, hv, hd, hr]
      obtain ⟨r, hrun, houts, hm⟩ :=
        ih { s with sd := (ops.sd_data_ready (ops.sd_read_data s.sd).2).2 } vs' hmode hrest
          (by simpa using hvs) (fun w hw => hin w (by simp [hw]))
      refine ⟨⟨r.s, d :: r.outs, [sd_call.read_data, sd_call.data_ready] ++ r.calls⟩, ?_, ?_, hm⟩
      · simp only [ssi_sd_run, hx, hrun]
      · simp [houts]

/-- What the dispatch leaves, whatever the card model answers. -/
theorem xfer_dispatch_facts {κ : Type} (ops : sd_card_ops κ) (m : sd_status_masks)
    (s : ssi_sd_state κ) (val : Nat) (hmode : s.mode = SSI_SD_CMDARG) (hlen : s.arglen = 4) :
    ∃ r, ssi_sd_xfer ops m s val = some r ∧ r.ret = 0xff ∧ r.s.mode = SSI_SD_RESPONSE ∧
      r.s.response_pos = 0 ∧ r.s.stopping = s.stopping ∧
      (r.s.arglen = 1 ∨ r.s.arglen = 2 ∨ r.s.arglen = 5) :=
  ⟨_, xfer_dispatch ops m s val hmode hlen, rfl, rfl, rfl,
    build_response_stopping m _ _, build_response_arglen m _ _⟩

/-- The abort, from any session in `SSI_SD_DATA_READ`: the byte `0x4d`, four
argument bytes and one more byte all return `0xff` and leave the session in
`SSI_SD_RESPONSE` with `stopping` still set and the cursor at 0; the next
transfer returns the turnaround `0xff` and clears `stopping`, and only the
one after it returns response byte 0. -/
theorem abort_sequence {κ : Type} (ops : sd_card_ops κ) (m : sd_status_masks)
    (s : ssi_sd_state κ) (b0 b1 b2 b3 crc : Nat) (hmode : s.mode = SSI_SD_DATA_READ) :
    ∃ t, ssi_sd_run ops m s [0x4d, b0, b1, b2, b3, crc] = some t ∧
      t.outs = [0xff, 0xff, 0xff, 0xff, 0xff, 0xff] ∧
      t.s.mode = SSI_SD_RESPONSE ∧ t.s.stopping = 1 ∧ t.s.response_pos = 0 ∧
      ∀ v1 v2, ssi_sd_run ops m t.s [v1, v2]
        = some ⟨{ t.s with stopping := 0, response_pos := 1 },
            [0xff, t.s.response 0], []⟩ := by
  have h5 : ∃ t5, ssi_sd_run ops m s [0x4d, b0, b1, b2, b3] = some t5 ∧
      t5.outs = [0xff, 0xff, 0xff, 0xff, 0xff] ∧ t5.s.mode = SSI_SD_CMDARG ∧
      t5.s.arglen = 4 ∧ t5.s.stopping = 1 := by
    simp [ssi_sd_run, ssi_sd_xfer, hmode]
  obtain ⟨t5, hrun5, houts5, hm5, hl5, hs5⟩ := h5
  obtain ⟨r6, hx6, hret6, hm6, hp6, hs6, hl6⟩ := xfer_dispatch_facts ops m t5.s crc hm5 hl5
  have hrun6 : ssi_sd_run ops m t5.s [crc] = some ⟨r6.s, [r6.ret], r6.calls ++ []⟩ := by
    simp only [ssi_sd_run, hx6]
  have hall := run_append ops m [0x4d, b0, b1, b2, b3] [crc] s _ _ hrun5 hrun6
  have hstop : r6.s.stopping = 1 := by rw [hs6, hs5]
  refine ⟨_, hall, by simp [houts5, hret6], hm6, hstop, hp6, ?_⟩
  intro v1 v2
  have hturn : ssi_sd_xfer ops m r6.s v1 = some ⟨{ r6.s with stopping := 0 }, 0xff, []⟩ := by
    simp [ssi_sd_xfer, hm6, hstop]
  have hbyte := xfer_response_byte ops m { r6.s with stopping := 0 } v2 0 hm6 rfl
    (by simpa using hp6) (by decide) (by
      show ((0 : Nat) : Int) < r6.s.arglen
      rcases hl6 with h | h | h <;> rw [h] <;> decide)
  simp only [ssi_sd_run, hturn, hbyte]
  rfl

/-! Command framing and the abort special case -/

/-- C1 as stated fails: after the command byte `0x51` and the four argument
bytes `1, 2, 3, 4` (five transfers) the card model has not been called at
all, so it has not received the dispatch of command 17. -/
theorem command_framing_five_transfers_no_dispatch :
    (ssi_sd_run (demo_ops 4 (fun _ => 0)) demo_masks (demo_state SSI_SD_CMD [])
        [0x51, 1, 2, 3, 4]).map (fun r => r.calls) = some [] ∧
    ¬ ∃ r, ssi_sd_run (demo_ops 4 (fun _ => 0)) demo_masks (demo_state SSI_SD_CMD [])
        [0x51, 1, 2, 3, 4] = some r ∧
      r.calls = [sd_call.do_command ⟨17, 1 * 2 ^ 24 + 2 * 2 ^ 16 + 3 * 2 ^ 8 + 4⟩] := by
  simp [ssi_sd_run, ssi_sd_xfer, demo_state, ssi_sd_init]

/-- C1 (amended): from a session in `SSI_SD_CMD`, after the byte `0x51` and
four argument bytes `a0..a3` no call has been made to the card model; the
dispatch happens on the next transfer (the sixth byte of the frame, whatever
its value), and after it the card model has received exactly one call, the
dispatch of command 17 with argument `a0*2^24 + a1*2^16 + a2*2^8 + a3`. -/
theorem command_framing_dispatch {κ : Type} (ops : sd_card_ops κ) (m : sd_status_masks)
    (s : ssi_sd_state κ) (a0 a1 a2 a3 crc : Nat) (hmode : s.mode = SSI_SD_CMD)
    (h0 : a0 < 256) (h1 : a1 < 256) (h2 : a2 < 256) (h3 : a3 < 256) :
    (∃ r, ssi_sd_run ops m s [0x51, a0, a1, a2, a3] = some r ∧ r.calls = []) ∧
    ∃ r, ssi_sd_run ops m s [0x51, a0, a1, a2, a3, crc] = some r ∧
      r.calls = [sd_call.do_command ⟨17, a0 * 2 ^ 24 + a1 * 2 ^ 16 + a2 * 2 ^ 8 + a3⟩] := by
  simp [ssi_sd_run, ssi_sd_xfer, ssi_sd_request, hmode]
  refine ⟨by decide, ?_⟩
  rw [Nat.mod_eq_of_lt h0, Nat.mod_eq_of_lt h1, Nat.mod_eq_of_lt h2, Nat.mod_eq_of_lt h3,
    be32_eq_sum a0 a1 a2 a3 h0 h1 h2 h3]
  norm_num

theorem command_framing_dispatch_witness :
    (∃ r, ssi_sd_run (demo_ops 4 (fun _ => 0)) demo_masks (demo_state SSI_SD_CMD [])
        [0x51, 1, 2, 3, 4] = some r ∧ r.calls = []) ∧
    ∃ r, ssi_sd_run (demo_ops 4 (fun _ => 0)) demo_masks (demo_state SSI_SD_CMD [])
        [0x51, 1, 2, 3, 4, 0x95] = some r ∧
      r.calls = [sd_call.do_command ⟨17, 1 * 2 ^ 24 + 2 * 2 ^ 16 + 3 * 2 ^ 8 + 4⟩] :=
  command_framing_dispatch (demo_ops 4 (fun _ => 0)) demo_masks (demo_state SSI_SD_CMD [])
    1 2 3 4 0x95 rfl (by decide) (by decide) (by decide) (by decide)

/-- C2: in `SSI_SD_DATA_READ` the transfer of `0x4d` returns `0xff`, sets
`stopping`, makes no call to the card model (whose state is unchanged), and
is exactly the transfer of `0x4d` from the same session put in `SSI_SD_CMD`
with `stopping` set: the mode is switched before the byte is interpreted. -/
theorem abort_precheck {κ : Type} (ops : sd_card_ops κ) (m : sd_status_masks)
    (s : ssi_sd_state κ) (hmode : s.mode = SSI_SD_DATA_READ) :
    ssi_sd_xfer ops m s 0x4d
        = ssi_sd_xfer ops m { s with mode := SSI_SD_CMD, stopping := 1 } 0x4d ∧
    ∃ r, ssi_sd_xfer ops m s 0x4d = some r ∧ r.ret = 0xff ∧ r.s.stopping = 1 ∧
      r.calls = [] ∧ r.s.sd = s.sd ∧ r.s.mode = SSI_SD_CMDARG := by
  simp [ssi_sd_xfer, hmode]

theorem abort_precheck_witness :
    ssi_sd_xfer (demo_ops 4 (fun _ => 0)) demo_masks (demo_state SSI_SD_DATA_READ [7, 8]) 0x4d
        = ssi_sd_xfer (demo_ops 4 (fun _ => 0)) demo_masks
            { demo_state SSI_SD_DATA_READ [7, 8] with mode := SSI_SD_CMD, stopping := 1 } 0x4d ∧
    ∃ r, ssi_sd_xfer (demo_ops 4 (fun _ => 0)) demo_masks
        (demo_state SSI_SD_DATA_READ [7, 8]) 0x4d = some r ∧ r.ret = 0xff ∧ r.s.stopping = 1 ∧
      r.calls = [] ∧ r.s.sd = [7, 8] ∧ r.s.mode = SSI_SD_CMDARG :=
  abort_precheck (demo_ops 4 (fun _ => 0)) demo_masks (demo_state SSI_SD_DATA_READ [7, 8]) rfl

/-- C3, the code at the failing input: in `SSI_SD_DATA_READ` the transfer of
the abort byte `0x4d` leaves the pending command 13, not 12, and the request
dispatched once the argument bytes have been received carries command 13;
the byte of command 12, `0x4c`, is not taken as an abort: it fetches a data
byte and leaves `stopping` clear. -/
theorem abort_byte_decodes_to_cmd13 :
    (ssi_sd_xfer (demo_ops 4 (fun _ => 0)) demo_masks (demo_state SSI_SD_DATA_READ [7, 8])
        0x4d).map (fun r => r.s.cmd) = some 13 ∧
    (ssi_sd_run (demo_ops 4 (fun _ => 0)) demo_masks (demo_state SSI_SD_DATA_READ [7, 8])
        [0x4d, 0, 0, 0, 0, 0xff]).map (fun r => r.calls)
      = some [sd_call.do_command ⟨13, 0⟩] ∧
    (ssi_sd_xfer (demo_ops 4 (fun _ => 0)) demo_masks (demo_state SSI_SD_DATA_READ [7, 8])
        0x4c).map (fun r => (r.ret, r.s.stopping, r.s.mode, r.calls))
      = some (7, 0, SSI_SD_DATA_READ, [sd_call.read_data, sd_call.data_ready]) := by
  simp [ssi_sd_run, ssi_sd_xfer, ssi_sd_request, demo_state, ssi_sd_init, demo_ops, be32]
  decide

/-- C4: in `SSI_SD_RESPONSE` with `stopping` set, the transfer of any byte
returns `0xff`, makes no call to the card model and changes nothing in the
session but `stopping`, which it clears; so the bytes returned from such a
session are one `0xff` followed by the bytes returned from the same session
with `stopping` clear. -/
theorem turnaround_byte {κ : Type} (ops : sd_card_ops κ) (m : sd_status_masks)
    (s : ssi_sd_state κ) (val : Nat) (hmode : s.mode = SSI_SD_RESPONSE)
    (hstop : s.stopping ≠ 0) :
    ssi_sd_xfer ops m s val = some ⟨{ s with stopping := 0 }, 0xff, []⟩ ∧
    ∀ vs, ssi_sd_run ops m s (val :: vs)
      = (ssi_sd_run ops m { s with stopping := 0 } vs).map
          (fun t => ⟨t.s, 0xff :: t.outs, t.calls⟩) := by
  have hx : ssi_sd_xfer ops m s val = some ⟨{ s with stopping := 0 }, 0xff, []⟩ := by
    simp [ssi_sd_xfer, hmode, hstop]
  refine ⟨hx, fun vs => ?_⟩
  simp only [ssi_sd_run, hx]
  cases ssi_sd_run ops m { s with stopping := 0 } vs <;> simp

theorem turnaround_byte_witness :
    ssi_sd_xfer (demo_ops 4 (fun _ => 0)) demo_masks
        { demo_state SSI_SD_RESPONSE [] with stopping := 1, arglen := 1 } 0x00
      = some ⟨{ demo_state SSI_SD_RESPONSE [] with stopping := 0, arglen := 1 }, 0xff, []⟩ ∧
    ∀ vs, ssi_sd_run (demo_ops 4 (fun _ => 0)) demo_masks
        { demo_state SSI_SD_RESPONSE [] with stopping := 1, arglen := 1 } (0x00 :: vs)
      = (ssi_sd_run (demo_ops 4 (fun _ => 0)) demo_masks
          { demo_state SSI_SD_RESPONSE [] with stopping := 0, arglen := 1 } vs).map
          (fun t => ⟨t.s, 0xff :: t.outs, t.calls⟩) :=
  turnaround_byte (demo_ops 4 (fun _ => 0)) demo_masks
    { demo_state SSI_SD_RESPONSE [] with stopping := 1, arglen := 1 } 0x00 rfl (by decide)

/-! The block lifecycle -/

/-- C5 as stated fails: from a session in `SSI_SD_RESPONSE` with cursor 0,
response length 1, response byte `0x04`, and a card that is ready and
streams the single byte `0xaa`, the first three transfers return
`0x04, 0xff, 0xfe` and not `0x04, 0xfe, 0xaa`: a `0xff` comes between the
response and the start token; the data byte is returned by the fourth.  With
response length 6 the buffer has no sixth byte: after five response bytes the
sixth transfer indexes `response[5]`, outside the array. -/
theorem block_lifecycle_filler_before_token :
    (ssi_sd_run (demo_ops 4 (fun _ => 0)) demo_masks
        { demo_state SSI_SD_RESPONSE [0xaa] with arglen := 1, response := fun _ => 0x04 }
        [0, 0, 0]).map (fun r => r.outs) = some [0x04, 0xff, 0xfe] ∧
    (ssi_sd_run (demo_ops 4 (fun _ => 0)) demo_masks
        { demo_state SSI_SD_RESPONSE [0xaa] with arglen := 1, response := fun _ => 0x04 }
        [0, 0, 0]).map (fun r => r.outs) ≠ some [0x04, 0xfe, 0xaa] ∧
    (ssi_sd_run (demo_ops 4 (fun _ => 0)) demo_masks
        { demo_state SSI_SD_RESPONSE [0xaa] with arglen := 1, response := fun _ => 0x04 }
        [0, 0, 0, 0]).map (fun r => r.outs) = some [0x04, 0xff, 0xfe, 0xaa] ∧
    (ssi_sd_run (demo_ops 4 (fun _ => 0)) demo_masks
        { demo_state SSI_SD_RESPONSE [0xaa] with arglen := 6, response := fun _ => 0x04 }
        [0, 0, 0, 0, 0]).map (fun r => r.outs) = some [0x04, 0x04, 0x04, 0x04, 0x04] ∧
    ssi_sd_run (demo_ops 4 (fun _ => 0)) demo_masks
        { demo_state SSI_SD_RESPONSE [0xaa] with arglen := 6, response := fun _ => 0x04 }
        [0, 0, 0, 0, 0, 0] = none := by
  simp [ssi_sd_run, ssi_sd_xfer, demo_state, ssi_sd_init, demo_ops]

/-- C5 (amended): from a session in `SSI_SD_RESPONSE` with cursor 0, response
length `L` (at most 5, the size of the response buffer), `stopping` clear, and
a card model that reports data ready and then streams the bytes `ds`
(at least one) before readiness turns false, the `L + 2 + |ds|` successive
transfers (inputs never `0x4d`) return, in order: the `L` response bytes, one
`0xff`, the start token `0xfe` once, then the bytes `ds`; the mode is
`SSI_SD_CMD` once the last of them has been returned. -/
theorem block_lifecycle {κ : Type} (ops : sd_card_ops κ) (m : sd_status_masks)
    (s : ssi_sd_state κ) (L : Nat) (ds vs : List Nat) (hmode : s.mode = SSI_SD_RESPONSE)
    (hpos : s.response_pos = 0) (hlen : s.arglen = (L : Int)) (hL : L ≤ 5)
    (hstop : s.stopping = 0) (hready : (ops.sd_data_ready s.sd).1 = true)
    (hstream : streams ops (ops.sd_data_ready s.sd).2 ds)
    (hvs : vs.length = L + 2 + ds.length) (hin : ∀ v ∈ vs, v ≠ 0x4d) :
    ∃ r, ssi_sd_run ops m s vs = some r ∧
      r.outs = (List.ofFn s.response).take L ++ 0xff :: 0xfe :: ds ∧
      r.s.mode = SSI_SD_CMD := by
  have hsplit : vs.take L ++ vs.drop L = vs := List.take_append_drop L vs
  have hdl : (vs.drop L).length = 2 + ds.length := by simp; omega
  obtain ⟨v1, v2, vs2, hdrop⟩ : ∃ v1 v2 vs2, vs.drop L = v1 :: v2 :: vs2 := by
    cases h : vs.drop L with
    | nil => rw [h] at hdl; simp at hdl; omega
    | cons v1 t =>
      cases t with
      | nil => rw [h] at hdl; simp at hdl; omega
      | cons v2 vs2 => exact ⟨v1, v2, vs2, rfl⟩
  have hvs2 : vs2.length = ds.length := by
    rw [hdrop] at hdl
    simp at hdl
    omega
  have hin2 : ∀ v ∈ vs2, v ≠ 0x4d := by
    intro v hv
    apply hin
    rw [← hsplit, hdrop]
    simp [hv]
  have h1 := run_response_phase ops m L hL L s (vs.take L) 0 hmode hstop (by simpa using hpos)
    hlen (by omega) (by simp; omega)
  have h2 := xfer_response_end_ready ops m { s with response_pos := (L : Int) } v1 hmode hstop
    hlen.symm hready
  have h3 := xfer_data_start ops m
    { s with response_pos := (L : Int), mode := SSI_SD_DATA_START,
             sd := (ops.sd_data_ready s.sd).2 } v2 rfl
  obtain ⟨r, hrun, houts, hm⟩ := run_streaming_phase ops m ds
    { s with response_pos := (L : Int), mode := SSI_SD_DATA_READ,
             sd := (ops.sd_data_ready s.sd).2 } vs2 rfl hstream hvs2 hin2
  have h23 : ssi_sd_run ops m { s with response_pos := (L : Int) } (v1 :: v2 :: vs2)
      = some ⟨r.s, 0xff :: 0xfe :: r.outs,
          [sd_call.data_ready] ++ ([] ++ r.calls)⟩ := by
    simp only [ssi_sd_run, h2, h3, hrun]
  have hall := run_append ops m (vs.take L) (v1 :: v2 :: vs2) s _ _ h1 h23
  rw [← hdrop, hsplit] at hall
  exact ⟨_, hall, by simp [houts], hm⟩

theorem block_lifecycle_witness :
    ∃ r, ssi_sd_run (demo_ops 4 (fun _ => 0)) demo_masks
        { demo_state SSI_SD_RESPONSE [0xaa, 0xbb] with
          arglen := 2, response := fun i => 0x10 + i.val } [0, 0, 0, 0, 0, 0] = some r ∧
      r.outs = (List.ofFn (fun i : Fin 5 => 0x10 + i.val)).take 2 ++ 0xff :: 0xfe :: [0xaa, 0xbb] ∧
      r.s.mode = SSI_SD_CMD :=
  block_lifecycle (demo_ops 4 (fun _ => 0)) demo_masks
    { demo_state SSI_SD_RESPONSE [0xaa, 0xbb] with
      arglen := 2, response := fun i => 0x10 + i.val } 2 [0xaa, 0xbb] [0, 0, 0, 0, 0, 0]
    rfl rfl rfl (by decide) rfl rfl ⟨rfl, rfl, rfl, rfl⟩ rfl (by decide)

/-! The response built at dispatch

In the statements below a dispatch is a transfer from a session in
`SSI_SD_CMDARG` that has received its four argument bytes (`arglen = 4`);
`n`, `longresp` and `sd'` are what the card model answers to the request:
the result count, the result buffer and the card state afterwards. -/

/-- C6: a dispatch with pending command 58 and a positive result count,
whatever the count, gives response length 5, response byte 0 equal to `0x01`
and response bytes 1..4 equal to bytes 0..3 of the result buffer, in order. -/
theorem r3_shape {κ : Type} (ops : sd_card_ops κ) (m : sd_status_masks)
    (s : ssi_sd_state κ) (val : Nat) (n : Int) (longresp : Fin 16 → Nat) (sd' : κ)
    (hmode : s.mode = SSI_SD_CMDARG) (hlen : s.arglen = 4) (hcmd : s.cmd = 58)
    (hcall : ops.sd_do_command s.sd (ssi_sd_request s) = (n, longresp, sd'))
    (hcount : 0 < n) :
    ∃ r, ssi_sd_xfer ops m s val = some r ∧ r.s.arglen = 5 ∧ r.s.response 0 = 1 ∧
      r.s.response 1 = longresp 0 % 256 ∧ r.s.response 2 = longresp 1 % 256 ∧
      r.s.response 3 = longresp 2 % 256 ∧ r.s.response 4 = longresp 3 % 256 := by
  have hc : ¬ n ≤ 0 := not_le.mpr hcount
  simp [ssi_sd_xfer, build_response, hmode, hlen, hcmd, hcall, hc]

theorem r3_shape_witness :
    ∃ r, ssi_sd_xfer (demo_ops 7 (fun i => 0x80 + i.val)) demo_masks
        { demo_state SSI_SD_CMDARG [] with arglen := 4, cmd := 58 } 0x00 = some r ∧
      r.s.arglen = 5 ∧ r.s.response 0 = 1 ∧
      r.s.response 1 = (fun i : Fin 16 => 0x80 + i.val) 0 % 256 ∧
      r.s.response 2 = (fun i : Fin 16 => 0x80 + i.val) 1 % 256 ∧
      r.s.response 3 = (fun i : Fin 16 => 0x80 + i.val) 2 % 256 ∧
      r.s.response 4 = (fun i : Fin 16 => 0x80 + i.val) 3 % 256 :=
  r3_shape (demo_ops 7 (fun i => 0x80 + i.val)) demo_masks
    { demo_state SSI_SD_CMDARG [] with arglen := 4, cmd := 58 } 0x00
    7 (fun i => 0x80 + i.val) [] rfl rfl rfl rfl (by decide)

/-- C7: a dispatch whose result count is non-positive (for every pending
command, 58 included), or whose result count is positive and different from 4
with a pending command other than 58, gives a response of length 1 whose
byte 0 is `0x04`; the transfer itself returns `0xff` and the mode becomes
`SSI_SD_RESPONSE` (with the response cursor at 0). -/
theorem illegal_command_fallback {κ : Type} (ops : sd_card_ops κ) (m : sd_status_masks)
    (s : ssi_sd_state κ) (val : Nat) (n : Int) (longresp : Fin 16 → Nat) (sd' : κ)
    (hmode : s.mode = SSI_SD_CMDARG) (hlen : s.arglen = 4)
    (hcall : ops.sd_do_command s.sd (ssi_sd_request s) = (n, longresp, sd'))
    (hcount : n ≤ 0 ∨ (s.cmd ≠ 58 ∧ 0 < n ∧ n ≠ 4)) :
    ∃ r, ssi_sd_xfer ops m s val = some r ∧ r.ret = 0xff ∧ r.s.mode = SSI_SD_RESPONSE ∧
      r.s.response_pos = 0 ∧ r.s.arglen = 1 ∧ r.s.response 0 = 4 := by
  rcases hcount with hc | ⟨hcmd, hpos, hne⟩
  · simp [ssi_sd_xfer, build_response, hmode, hlen, hcall, hc]
  · have hc : ¬ n ≤ 0 := not_le.mpr hpos
    simp [ssi_sd_xfer, build_response, hmode, hlen, hcall, hc, hcmd, hne]

theorem illegal_command_fallback_witness :
    ∃ r, ssi_sd_xfer (demo_ops 0 (fun _ => 0)) demo_masks
        { demo_state SSI_SD_CMDARG [] with arglen := 4, cmd := 58 } 0x00 = some r ∧
      r.ret = 0xff ∧ r.s.mode = SSI_SD_RESPONSE ∧ r.s.response_pos = 0 ∧ r.s.arglen = 1 ∧
      r.s.response 0 = 4 :=
  illegal_command_fallback (demo_ops 0 (fun _ => 0)) demo_masks
    { demo_state SSI_SD_CMDARG [] with arglen := 4, cmd := 58 } 0x00
    0 (fun _ => 0) [] rfl rfl rfl (Or.inl (by decide))

/-- C8: a dispatch with a pending command other than 58 and result count
exactly 4 gives response length 2 when the command is 13 and 1 for every
other command; response byte 0 is the high byte and response byte 1 the low
byte of the 16-bit status word built from the card status, the big-endian
word of result bytes 0..3. -/
theorem send_status_length {κ : Type} (ops : sd_card_ops κ) (m : sd_status_masks)
    (s : ssi_sd_state κ) (val : Nat) (longresp : Fin 16 → Nat) (sd' : κ)
    (hmode : s.mode = SSI_SD_CMDARG) (hlen : s.arglen = 4) (hcmd : s.cmd ≠ 58)
    (hcall : ops.sd_do_command s.sd (ssi_sd_request s) = (4, longresp, sd')) :
    ∃ r, ssi_sd_xfer ops m s val = some r ∧
      r.s.arglen = (if s.cmd = 13 then 2 else 1) ∧
      r.s.response 0 = spi_status m (card_status longresp) / 2 ^ 8 ∧
      r.s.response 1 = spi_status m (card_status longresp) % 2 ^ 8 ∧
      spi_status m (card_status longresp) < 2 ^ 16 := by
  have hlt := spi_status_lt m (card_status longresp)
  simp [ssi_sd_xfer, build_response, hmode, hlen, hcmd, hcall, Nat.shiftRight_eq_div_pow]
  omega

theorem send_status_length_witness :
    ∃ r, ssi_sd_xfer (demo_ops 4 (fun _ => 0)) demo_masks
        { demo_state SSI_SD_CMDARG [] with arglen := 4, cmd := 13 } 0x00 = some r ∧
      r.s.arglen = (if ({ demo_state SSI_SD_CMDARG [] with arglen := 4, cmd := 13 } :
        ssi_sd_state (List Nat)).cmd = 13 then 2 else 1) ∧
      r.s.response 0 = spi_status demo_masks (card_status (fun _ => 0)) / 2 ^ 8 ∧
      r.s.response 1 = spi_status demo_masks (card_status (fun _ => 0)) % 2 ^ 8 ∧
      spi_status demo_masks (card_status (fun _ => 0)) < 2 ^ 16 :=
  send_status_length (demo_ops 4 (fun _ => 0)) demo_masks
    { demo_state SSI_SD_CMDARG [] with arglen := 4, cmd := 13 } 0x00
    (fun _ => 0) [] rfl rfl (by decide) rfl

/-- C9: for every card status `c` the status word built by the code equals
the table: the bitwise OR of `0x0100` if the state field `(c >> 9) & 0xf` is
below 4, `0x0200` if `c` has `ERASE_RESET`, `0x0400` if `ILLEGAL_COMMAND`,
`0x0800` if `COM_CRC_ERROR`, `0x1000` if `ERASE_SEQ_ERROR`, `0x2000` if
`ADDRESS_ERROR`, `0x0001` if `CARD_IS_LOCKED`, `0x0002` if
`LOCK_UNLOCK_FAILED` or `WP_ERASE_SKIP`, `0x0004` if `SD_ERROR`, `0x0008` if
`CC_ERROR`, `0x0010` if `CARD_ECC_FAILED`, `0x0020` if `WP_VIOLATION`,
`0x0040` if `ERASE_PARAM`, `0x0080` if `OUT_OF_RANGE` or `CID_CSD_OVERWRITE`,
and `0x4000` if one of the eight low conditions holds; so no other bit is
set.  The masks are parameters. -/
theorem status_bit_mapping (m : sd_status_masks) (c : Nat) :
    spi_status m c = status_table m c :=
  spi_status_eq_table m c

/-- C10: after a dispatch with a pending command other than 58 that the card
model answers with count 4, let `c` be the card status returned, the
big-endian value of result bytes 0..3.  Then response bytes 0 and 1 are the
high and the low byte of the table word of `c`; bit 0 of response byte 0 is
set exactly when the 4-bit field in bits 9..12 of `c` is below 4; bit 6 of
response byte 0 is set exactly when response byte 1 is nonzero; and if `c` is
zero, response byte 0 is `0x01` and response byte 1 is `0x00`. -/
theorem derived_status_bits {κ : Type} (ops : sd_card_ops κ) (m : sd_status_masks)
    (s : ssi_sd_state κ) (val : Nat) (longresp : Fin 16 → Nat) (sd' : κ) (c : Nat)
    (hmode : s.mode = SSI_SD_CMDARG) (hlen : s.arglen = 4) (hcmd : s.cmd ≠ 58)
    (hcall : ops.sd_do_command s.sd (ssi_sd_request s) = (4, longresp, sd'))
    (hc : c = longresp 0 % 256 * 2 ^ 24 + longresp 1 % 256 * 2 ^ 16
      + longresp 2 % 256 * 2 ^ 8 + longresp 3 % 256) :
    ∃ r, ssi_sd_xfer ops m s val = some r ∧
      r.s.response 0 = status_table m c / 2 ^ 8 ∧
      r.s.response 1 = status_table m c % 2 ^ 8 ∧
      ((r.s.response 0).testBit 0 = true ↔ (c / 2 ^ 9) % 16 < 4) ∧
      ((r.s.response 0).testBit 6 = true ↔ r.s.response 1 ≠ 0) ∧
      (c = 0 → r.s.response 0 = 0x01 ∧ r.s.response 1 = 0x00) := by
  obtain ⟨r, hr, -, hb0, hb1⟩ :=
    xfer_status_path ops m s val longresp sd' hmode hlen hcmd hcall
  have hcs : card_status longresp = c := by
    unfold card_status
    rw [be32_eq_sum _ _ _ _ (Nat.mod_lt _ (by decide)) (Nat.mod_lt _ (by decide))
      (Nat.mod_lt _ (by decide)) (Nat.mod_lt _ (by decide))]
    exact hc.symm
  have hlt := spi_status_lt m c
  have hfield : state_below_4 c ↔ (c / 2 ^ 9) % 16 < 4 := by
    unfold state_below_4
    rw [Nat.shiftRight_eq_div_pow]
    have h := Nat.and_pow_two_sub_one_eq_mod (c / 2 ^ 9) 4
    have h15 : (c / 2 ^ 9) &&& 0xf = (c / 2 ^ 9) % 16 := h
    rw [h15]
  rw [hcs, spi_status_eq_table] at hb0 hb1
  rw [spi_status_eq_table] at hlt
  refine ⟨r, hr, ?_, hb1, ?_, ?_, ?_⟩
  · rw [hb0, Nat.shiftRight_eq_div_pow]
    apply Nat.mod_eq_of_lt
    omega
  · rw [hb0, high_byte_testBit _ 0 (by decide), status_table_bit_8]
    simp [hfield]
  · rw [hb0, hb1, high_byte_testBit _ 6 (by decide), status_table_bit_14,
      status_table_low_byte]
    simp
  · intro hz
    rw [hb0, hb1, hz, status_table_zero]
    decide

theorem derived_status_bits_witness :
    ∃ r, ssi_sd_xfer (demo_ops 4 (fun i => if i.val = 2 then 0x08 else 0)) demo_masks
        { demo_state SSI_SD_CMDARG [] with arglen := 4, cmd := 17 } 0x00 = some r ∧
      r.s.response 0 = status_table demo_masks 0x0800 / 2 ^ 8 ∧
      r.s.response 1 = status_table demo_masks 0x0800 % 2 ^ 8 ∧
      ((r.s.response 0).testBit 0 = true ↔ (0x0800 / 2 ^ 9) % 16 < 4) ∧
      ((r.s.response 0).testBit 6 = true ↔ r.s.response 1 ≠ 0) ∧
      (0x0800 = 0 → r.s.response 0 = 0x01 ∧ r.s.response 1 = 0x00) :=
  derived_status_bits (demo_ops 4 (fun i => if i.val = 2 then 0x08 else 0)) demo_masks
    { demo_state SSI_SD_CMDARG [] with arglen := 4, cmd := 17 } 0x00
    (fun i => if i.val = 2 then 0x08 else 0) [] 0x0800 rfl rfl (by decide) rfl (by decide)

/-- The status bytes `00 00 08 00` (state field 4) after command 17 give the
response byte `0x00`: the idle bit is clear; the status bytes `00 00 00 00`
give `0x01`. -/
theorem status_bytes_examples :
    (ssi_sd_xfer (demo_ops 4 (fun i => if i.val = 2 then 0x08 else 0)) demo_masks
        { demo_state SSI_SD_CMDARG [] with arglen := 4, cmd := 17 } 0x00).map
      (fun r => (r.s.response 0, r.s.response 1, r.s.arglen)) = some (0x00, 0x00, 1) ∧
    (ssi_sd_xfer (demo_ops 4 (fun _ => 0)) demo_masks
        { demo_state SSI_SD_CMDARG [] with arglen := 4, cmd := 17 } 0x00).map
      (fun r => (r.s.response 0, r.s.response 1, r.s.arglen)) = some (0x01, 0x00, 1) := by
  constructor <;>
    simp +decide [ssi_sd_xfer, build_response, demo_state, ssi_sd_init, demo_ops,
      ssi_sd_request, card_status, be32, spi_status, demo_masks, SSI_SDR_IDLE,
      SSI_SDR_PARAMETER_ERROR]

/-! The transfer, mode by mode -/

/-- C11: in `SSI_SD_CMD` the transfer of `0xff` returns `0xff`, leaves the
whole session as it is (mode, pending command, argument bytes, response
buffer, counters, `stopping`, card state) and makes no call to the card
model. -/
theorem idle_invariance {κ : Type} (ops : sd_card_ops κ) (m : sd_status_masks)
    (s : ssi_sd_state κ) (hmode : s.mode = SSI_SD_CMD) :
    ssi_sd_xfer ops m s 0xff = some ⟨s, 0xff, []⟩ := by
  simp [ssi_sd_xfer, hmode]

theorem idle_invariance_witness :
    ssi_sd_xfer (demo_ops 4 (fun _ => 0)) demo_masks
        { demo_state SSI_SD_CMD [7] with cmd := 17, arglen := 2, response_pos := 2 } 0xff
      = some ⟨{ demo_state SSI_SD_CMD [7] with cmd := 17, arglen := 2, response_pos := 2 },
          0xff, []⟩ :=
  idle_invariance (demo_ops 4 (fun _ => 0)) demo_masks
    { demo_state SSI_SD_CMD [7] with cmd := 17, arglen := 2, response_pos := 2 } rfl

/-- C12: in `SSI_SD_CMD` the transfer of a byte `v` other than `0xff`
(whatever its top two bits) returns `0xff`, sets the pending command to
`v & 0x3f`, resets `arglen` to 0, moves to `SSI_SD_CMDARG`, leaves every other
field (argument bytes, response buffer, response cursor, `stopping`, card
state) as it is and makes no call to the card model. -/
theorem command_byte {κ : Type} (ops : sd_card_ops κ) (m : sd_status_masks)
    (s : ssi_sd_state κ) (v : Nat) (hmode : s.mode = SSI_SD_CMD) (hne : v ≠ 0xff) :
    ssi_sd_xfer ops m s v
      = some ⟨{ s with cmd := ((v &&& 0x3f : Nat) : Int), mode := SSI_SD_CMDARG, arglen := 0 },
          0xff, []⟩ := by
  simp [ssi_sd_xfer, hmode, hne]

theorem command_byte_witness :
    ssi_sd_xfer (demo_ops 4 (fun _ => 0)) demo_masks
        { demo_state SSI_SD_CMD [7] with arglen := 2, response_pos := 2 } 0xd1
      = some ⟨{ demo_state SSI_SD_CMD [7] with
                arglen := 0, response_pos := 2, mode := SSI_SD_CMDARG,
                cmd := ((0xd1 &&& 0x3f : Nat) : Int) }, 0xff, []⟩ :=
  command_byte (demo_ops 4 (fun _ => 0)) demo_masks
    { demo_state SSI_SD_CMD [7] with arglen := 2, response_pos := 2 } 0xd1 rfl (by decide)

/-- C13: in `SSI_SD_RESPONSE` with `stopping` clear and the cursor `k` below
the response length `L` (a count of bytes of the 5-byte buffer), the transfer
of any byte returns `response[k]`, advances the cursor to `k + 1`, stays in
`SSI_SD_RESPONSE` and makes no call to the card model; hence the next `L - k`
transfers return response bytes `k .. L-1` in order (from cursor 0: bytes
`0 .. L-1`). -/
theorem response_delivery {κ : Type} (ops : sd_card_ops κ) (m : sd_status_masks)
    (s : ssi_sd_state κ) (val k L : Nat) (hmode : s.mode = SSI_SD_RESPONSE)
    (hstop : s.stopping = 0) (hpos : s.response_pos = (k : Int))
    (hlen : s.arglen = (L : Int)) (hk : k < L) (hL : L ≤ 5) :
    ssi_sd_xfer ops m s val
      = some ⟨{ s with response_pos := (k : Int) + 1 }, s.response ⟨k, by omega⟩, []⟩ ∧
    ∀ vs : List Nat, vs.length + k = L →
      ssi_sd_run ops m s vs
        = some ⟨{ s with response_pos := (L : Int) },
            ((List.ofFn s.response).take L).drop k, []⟩ :=
  ⟨xfer_response_byte ops m s val k hmode hstop hpos (by omega) (by omega),
    fun vs hvs => run_response_phase ops m L hL vs.length s vs k hmode hstop hpos hlen
      (by omega) rfl⟩

theorem response_delivery_witness :
    ssi_sd_xfer (demo_ops 4 (fun _ => 0)) demo_masks
        { demo_state SSI_SD_RESPONSE [] with arglen := 2, response := fun i => 0x10 + i.val }
        0x00
      = some ⟨{ demo_state SSI_SD_RESPONSE [] with
                arglen := 2, response := fun i => 0x10 + i.val,
                response_pos := ((0 : Nat) : Int) + 1 },
          (fun i : Fin 5 => 0x10 + i.val) ⟨0, by omega⟩, []⟩ ∧
    ∀ vs : List Nat, vs.length + 0 = 2 →
      ssi_sd_run (demo_ops 4 (fun _ => 0)) demo_masks
        { demo_state SSI_SD_RESPONSE [] with arglen := 2, response := fun i => 0x10 + i.val }
        vs
        = some ⟨{ demo_state SSI_SD_RESPONSE [] with
                  arglen := 2, response := fun i => 0x10 + i.val,
                  response_pos := ((2 : Nat) : Int) },
            ((List.ofFn (fun i : Fin 5 => 0x10 + i.val)).take 2).drop 0, []⟩ :=
  response_delivery (demo_ops 4 (fun _ => 0)) demo_masks
    { demo_state SSI_SD_RESPONSE [] with arglen := 2, response := fun i => 0x10 + i.val }
    0x00 0 2 rfl rfl rfl rfl (by decide) (by decide)

/-- C14: in `SSI_SD_RESPONSE` with `stopping` clear and the cursor equal to the
response length, the transfer of any byte returns `0xff`, asks the card model
once whether data is ready and nothing else (no data byte is read), and moves
to `SSI_SD_DATA_START` if it is and to `SSI_SD_CMD` otherwise. -/
theorem end_of_response {κ : Type} (ops : sd_card_ops κ) (m : sd_status_masks)
    (s : ssi_sd_state κ) (val : Nat) (hmode : s.mode = SSI_SD_RESPONSE)
    (hstop : s.stopping = 0) (hpos : s.response_pos = s.arglen) :
    ssi_sd_xfer ops m s val
      = some ⟨{ s with
                mode := if (ops.sd_data_ready s.sd).1 then SSI_SD_DATA_START else SSI_SD_CMD
                sd := (ops.sd_data_ready s.sd).2 }, 0xff, [sd_call.data_ready]⟩ := by
  cases h : (ops.sd_data_ready s.sd).1 <;> simp [ssi_sd_xfer, hmode, hstop, hpos, h]

theorem end_of_response_witness :
    ssi_sd_xfer (demo_ops 4 (fun _ => 0)) demo_masks
        { demo_state SSI_SD_RESPONSE [7] with arglen := 1, response_pos := 1 } 0x00
      = some ⟨{ demo_state SSI_SD_RESPONSE [7] with
                arglen := 1, response_pos := 1,
                mode := if ((demo_ops 4 (fun _ => 0)).sd_data_ready [7]).1
                  then SSI_SD_DATA_START else SSI_SD_CMD,
                sd := ((demo_ops 4 (fun _ => 0)).sd_data_ready [7]).2 },
          0xff, [sd_call.data_ready]⟩ :=
  end_of_response (demo_ops 4 (fun _ => 0)) demo_masks
    { demo_state SSI_SD_RESPONSE [7] with arglen := 1, response_pos := 1 } 0x00 rfl rfl rfl

/-- C15: in `SSI_SD_DATA_START` the transfer of any byte, `0x4d` included,
returns `0xfe`, moves to `SSI_SD_DATA_READ`, changes no other field of the
session and makes no call to the card model; the session it leaves is not in
`SSI_SD_DATA_START`, so the token is not repeated. -/
theorem start_token {κ : Type} (ops : sd_card_ops κ) (m : sd_status_masks)
    (s : ssi_sd_state κ) (val : Nat) (hmode : s.mode = SSI_SD_DATA_START) :
    ssi_sd_xfer ops m s val = some ⟨{ s with mode := SSI_SD_DATA_READ }, 0xfe, []⟩ := by
  simp [ssi_sd_xfer, hmode]

theorem start_token_witness :
    ssi_sd_xfer (demo_ops 4 (fun _ => 0)) demo_masks (demo_state SSI_SD_DATA_START [7]) 0x4d
      = some ⟨{ demo_state SSI_SD_DATA_START [7] with mode := SSI_SD_DATA_READ }, 0xfe, []⟩ :=
  start_token (demo_ops 4 (fun _ => 0)) demo_masks (demo_state SSI_SD_DATA_START [7]) 0x4d rfl

/-- C16: in `SSI_SD_DATA_READ` the transfer of any byte other than `0x4d`
reads exactly one data byte from the card model and returns it, then asks
once whether data is ready; the mode becomes `SSI_SD_CMD` if the card model
answers not ready after that read and stays `SSI_SD_DATA_READ` otherwise;
nothing else in the session changes. -/
theorem streaming {κ : Type} (ops : sd_card_ops κ) (m : sd_status_masks)
    (s : ssi_sd_state κ) (val : Nat) (hmode : s.mode = SSI_SD_DATA_READ)
    (hval : val ≠ 0x4d) :
    ssi_sd_xfer ops m s val
      = some ⟨{ s with
                mode := if (ops.sd_data_ready (ops.sd_read_data s.sd).2).1
                  then SSI_SD_DATA_READ else SSI_SD_CMD
                sd := (ops.sd_data_ready (ops.sd_read_data s.sd).2).2 },
          (ops.sd_read_data s.sd).1, [sd_call.read_data, sd_call.data_ready]⟩ := by
  cases h : (ops.sd_data_ready (ops.sd_read_data s.sd).2).1 <;>
    simp [ssi_sd_xfer, hmode, hval, h]

theorem streaming_witness :
    ssi_sd_xfer (demo_ops 4 (fun _ => 0)) demo_masks (demo_state SSI_SD_DATA_READ [7, 8]) 0x00
      = some ⟨{ demo_state SSI_SD_DATA_READ [7, 8] with
                mode := if ((demo_ops 4 (fun _ => 0)).sd_data_ready
                    (((demo_ops 4 (fun _ => 0)).sd_read_data [7, 8]).2)).1
                  then SSI_SD_DATA_READ else SSI_SD_CMD,
                sd := ((demo_ops 4 (fun _ => 0)).sd_data_ready
                    (((demo_ops 4 (fun _ => 0)).sd_read_data [7, 8]).2)).2 },
          ((demo_ops 4 (fun _ => 0)).sd_read_data [7, 8]).1,
          [sd_call.read_data, sd_call.data_ready]⟩ :=
  streaming (demo_ops 4 (fun _ => 0)) demo_masks (demo_state SSI_SD_DATA_READ [7, 8]) 0x00
    rfl (by decide)

/-! Dispatch timing and the first response byte -/

/-- C18: from a session in `SSI_SD_CMDARG` with `arglen = 0`, the next four
transfers store their input bytes `b0..b3` as argument bytes 0..3, each
return `0xff` and make no call to the card model; the transfer after them,
whatever its input byte, makes exactly one call, the dispatch of the pending
command with the big-endian value of the four bytes, returns `0xff` and ends
in `SSI_SD_RESPONSE` with cursor 0; and two such transfers that differ only
in the input byte give the same result (return value, calls and session). -/
theorem dispatch_timing {κ : Type} (ops : sd_card_ops κ) (m : sd_status_masks)
    (s : ssi_sd_state κ) (b0 b1 b2 b3 : Nat) (hmode : s.mode = SSI_SD_CMDARG)
    (hlen : s.arglen = 0) (h0 : b0 < 256) (h1 : b1 < 256) (h2 : b2 < 256) (h3 : b3 < 256) :
    ∃ r4, ssi_sd_run ops m s [b0, b1, b2, b3] = some r4 ∧
      r4.outs = [0xff, 0xff, 0xff, 0xff] ∧ r4.calls = [] ∧
      r4.s.cmdarg 0 = b0 ∧ r4.s.cmdarg 1 = b1 ∧ r4.s.cmdarg 2 = b2 ∧ r4.s.cmdarg 3 = b3 ∧
      r4.s.cmd = s.cmd ∧ r4.s.sd = s.sd ∧
      (∀ v, ∃ r, ssi_sd_xfer ops m r4.s v = some r ∧ r.ret = 0xff ∧
        r.calls = [sd_call.do_command
          ⟨s.cmd, b0 * 2 ^ 24 + b1 * 2 ^ 16 + b2 * 2 ^ 8 + b3⟩] ∧
        r.s.mode = SSI_SD_RESPONSE ∧ r.s.response_pos = 0) ∧
      ∀ v w, ssi_sd_xfer ops m r4.s v = ssi_sd_xfer ops m r4.s w := by
  have hb := be32_eq_sum b0 b1 b2 b3 h0 h1 h2 h3
  simp [ssi_sd_run, ssi_sd_xfer, ssi_sd_request, hmode, hlen, Nat.mod_eq_of_lt, h0, h1, h2,
    h3, hb]

theorem dispatch_timing_witness :
    ∃ r4, ssi_sd_run (demo_ops 4 (fun _ => 0)) demo_masks
        { demo_state SSI_SD_CMDARG [] with cmd := 17 } [1, 2, 3, 4] = some r4 ∧
      r4.outs = [0xff, 0xff, 0xff, 0xff] ∧ r4.calls = [] ∧
      r4.s.cmdarg 0 = 1 ∧ r4.s.cmdarg 1 = 2 ∧ r4.s.cmdarg 2 = 3 ∧ r4.s.cmdarg 3 = 4 ∧
      r4.s.cmd = ({ demo_state SSI_SD_CMDARG [] with cmd := 17 } : ssi_sd_state (List Nat)).cmd ∧
      r4.s.sd = ({ demo_state SSI_SD_CMDARG [] with cmd := 17 } : ssi_sd_state (List Nat)).sd ∧
      (∀ v, ∃ r, ssi_sd_xfer (demo_ops 4 (fun _ => 0)) demo_masks r4.s v = some r ∧
        r.ret = 0xff ∧
        r.calls = [sd_call.do_command
          ⟨({ demo_state SSI_SD_CMDARG [] with cmd := 17 } : ssi_sd_state (List Nat)).cmd,
            1 * 2 ^ 24 + 2 * 2 ^ 16 + 3 * 2 ^ 8 + 4⟩] ∧
        r.s.mode = SSI_SD_RESPONSE ∧ r.s.response_pos = 0) ∧
      ∀ v w, ssi_sd_xfer (demo_ops 4 (fun _ => 0)) demo_masks r4.s v
        = ssi_sd_xfer (demo_ops 4 (fun _ => 0)) demo_masks r4.s w :=
  dispatch_timing (demo_ops 4 (fun _ => 0)) demo_masks
    { demo_state SSI_SD_CMDARG [] with cmd := 17 } 1 2 3 4 rfl rfl
    (by decide) (by decide) (by decide) (by decide)

/-- C20: for every pending command, every argument and every answer of the
card model (failure, wrong count, OCR or any card status), the response byte
0 left by a dispatch is below `0x80`, hence never `0xff`. -/
theorem first_response_byte_below_0x80 {κ : Type} (ops : sd_card_ops κ)
    (m : sd_status_masks) (s : ssi_sd_state κ) (val : Nat)
    (hmode : s.mode = SSI_SD_CMDARG) (hlen : s.arglen = 4) :
    ∃ r, ssi_sd_xfer ops m s val = some r ∧ r.s.mode = SSI_SD_RESPONSE ∧
      r.s.response_pos = 0 ∧ r.s.response 0 < 0x80 ∧ r.s.response 0 ≠ 0xff := by
  have hb := build_response_byte0_lt m
    { s with arglen := (ops.sd_do_command s.sd (ssi_sd_request s)).1,
             sd := (ops.sd_do_command s.sd (ssi_sd_request s)).2.2 }
    (ops.sd_do_command s.sd (ssi_sd_request s)).2.1
  refine ⟨_, xfer_dispatch ops m s val hmode hlen, rfl, rfl, hb, ?_⟩
  intro h
  rw [h] at hb
  exact absurd hb (by decide)

theorem first_response_byte_below_0x80_witness :
    ∃ r, ssi_sd_xfer (demo_ops 4 (fun _ => 0xff)) demo_masks
        { demo_state SSI_SD_CMDARG [] with arglen := 4, cmd := 13 } 0x00 = some r ∧
      r.s.mode = SSI_SD_RESPONSE ∧ r.s.response_pos = 0 ∧ r.s.response 0 < 0x80 ∧
      r.s.response 0 ≠ 0xff :=
  first_response_byte_below_0x80 (demo_ops 4 (fun _ => 0xff)) demo_masks
    { demo_state SSI_SD_CMDARG [] with arglen := 4, cmd := 13 } 0x00 rfl rfl

/-! Invariants of the reachable sessions -/

/-- C17: after every sequence of transfers from the initial session, with any
input bytes and any card model, the transfers are all defined (no index
outside `cmdarg` or `response`) and the session reached has `0 ≤ arglen ≤ 4`
if its mode is `SSI_SD_CMDARG`, and `arglen` one of 1, 2, 5 with
`0 ≤ response_pos ≤ arglen` if its mode is `SSI_SD_RESPONSE`; so the index of
the write `cmdarg[arglen]` (made when `arglen` is not 4) is below 4, the index
of the read `response[response_pos]` (made when `response_pos < arglen`) is
below 5, and the next transfer is defined for every input byte. -/
theorem counter_invariant {κ : Type} (ops : sd_card_ops κ) (m : sd_status_masks)
    (sd : κ) (vs : List Nat) :
    ∃ r, ssi_sd_run ops m (ssi_sd_init sd) vs = some r ∧
      (r.s.mode = SSI_SD_CMDARG → 0 ≤ r.s.arglen ∧ r.s.arglen ≤ 4) ∧
      (r.s.mode = SSI_SD_RESPONSE →
        (r.s.arglen = 1 ∨ r.s.arglen = 2 ∨ r.s.arglen = 5) ∧
          0 ≤ r.s.response_pos ∧ r.s.response_pos ≤ r.s.arglen) ∧
      (r.s.mode = SSI_SD_CMDARG → r.s.arglen ≠ 4 → 0 ≤ r.s.arglen ∧ r.s.arglen < 4) ∧
      (r.s.mode = SSI_SD_RESPONSE → r.s.response_pos < r.s.arglen →
        0 ≤ r.s.response_pos ∧ r.s.response_pos < 5) ∧
      ∀ v, ∃ r', ssi_sd_xfer ops m r.s v = some r' := by
  obtain ⟨r, hrun, hc, -⟩ := run_init_invariants ops m sd vs
  refine ⟨r, hrun, hc.1, hc.2, ?_, ?_, ?_⟩
  · intro hm hne
    have := hc.1 hm
    omega
  · intro hm hlt
    have := hc.2 hm
    omega
  · intro v
    obtain ⟨r', hx, -⟩ := xfer_counter_inv ops m r.s v hc
    exact ⟨r', hx⟩

/-- C19: after every sequence of transfers from the initial session, with any
input bytes and any card model, if `stopping` is set then the mode is
`SSI_SD_CMDARG`, or `SSI_SD_RESPONSE` with the cursor at 0; so `stopping` is
clear in `SSI_SD_CMD`, `SSI_SD_DATA_START` and `SSI_SD_DATA_READ`.  Where it
is set in `SSI_SD_RESPONSE` the next transfer returns the turnaround `0xff`
and clears it with the cursor still at 0.  And every abort from a session
reached in `SSI_SD_DATA_READ` goes that way: the byte `0x4d`, four argument
bytes and the byte that dispatches all return `0xff` and leave the session in
`SSI_SD_RESPONSE` with `stopping` still set and the cursor at 0; the next
transfer returns the turnaround `0xff` and clears `stopping`, and the one
after it returns response byte 0 of the aborting command, with `stopping`
clear from then on. -/
theorem abort_flag_confinement {κ : Type} (ops : sd_card_ops κ) (m : sd_status_masks)
    (sd : κ) (vs : List Nat) :
    ∃ r, ssi_sd_run ops m (ssi_sd_init sd) vs = some r ∧
      (r.s.stopping ≠ 0 →
        r.s.mode = SSI_SD_CMDARG ∨ (r.s.mode = SSI_SD_RESPONSE ∧ r.s.response_pos = 0)) ∧
      (r.s.mode = SSI_SD_CMD ∨ r.s.mode = SSI_SD_DATA_START ∨ r.s.mode = SSI_SD_DATA_READ →
        r.s.stopping = 0) ∧
      (r.s.stopping ≠ 0 → r.s.mode = SSI_SD_RESPONSE →
        ∀ v, ssi_sd_xfer ops m r.s v = some ⟨{ r.s with stopping := 0 }, 0xff, []⟩ ∧
          r.s.response_pos = 0) ∧
      (r.s.mode = SSI_SD_DATA_READ → ∀ b0 b1 b2 b3 crc,
        ∃ t, ssi_sd_run ops m r.s [0x4d, b0, b1, b2, b3, crc] = some t ∧
          t.outs = [0xff, 0xff, 0xff, 0xff, 0xff, 0xff] ∧
          t.s.mode = SSI_SD_RESPONSE ∧ t.s.stopping = 1 ∧ t.s.response_pos = 0 ∧
          ∀ v1 v2, ssi_sd_run ops m t.s [v1, v2]
            = some ⟨{ t.s with stopping := 0, response_pos := 1 },
                [0xff, t.s.response 0], []⟩) := by
  obtain ⟨r, hrun, -, hs⟩ := run_init_invariants ops m sd vs
  refine ⟨r, hrun, hs, ?_, ?_, ?_⟩
  · intro hm
    by_contra h
    rcases hs h with h1 | ⟨h1, -⟩ <;> rcases hm with h2 | h2 | h2 <;> rw [h1] at h2 <;>
      exact absurd h2 (by decide)
  · intro hne hm v
    refine ⟨by simp [ssi_sd_xfer, hm, hne], ?_⟩
    rcases hs hne with h1 | ⟨-, h1⟩
    · rw [hm] at h1
      exact absurd h1 (by decide)
    · exact h1
  · intro hm b0 b1 b2 b3 crc
    exact abort_sequence ops m r.s b0 b1 b2 b3 crc hm

/-- A run from the initial session with an abort: command 17 is answered by
the response byte `0x01`, the card is ready, the token `0xfe` follows, the
first data byte is read, then `0x4d` aborts; its argument bytes and the
dispatching byte return `0xff`, then comes the turnaround `0xff`, and only
then the two response bytes of the aborting command; `stopping` is clear at
the end. -/
theorem abort_run_from_init :
    (ssi_sd_run (demo_ops 4 (fun _ => 0)) demo_masks (ssi_sd_init [7, 8, 9])
        [0x51, 0, 0, 0, 0, 0xff, 0xff, 0xff, 0xff, 0xff,
          0x4d, 0, 0, 0, 0, 0xff, 0xff, 0xff, 0xff]).map
      (fun r => (r.outs, r.s.stopping))
      = some ([0xff, 0xff, 0xff, 0xff, 0xff, 0xff, 0x01, 0xff, 0xfe, 7,
          0xff, 0xff, 0xff, 0xff, 0xff, 0xff, 0xff, 0x01, 0x00], 0) := by
  simp +decide [ssi_sd_run, ssi_sd_xfer, build_response, ssi_sd_init, demo_ops,
    ssi_sd_request, card_status, be32, spi_status, demo_masks, SSI_SDR_IDLE,
    SSI_SDR_PARAMETER_ERROR]

end SsiSd
